import Mathlib

/-!
# RDT controller of cri-resource-manager

A shallow embedding of `pkg/cri/resource-manager/control/rdt/rdt.go`.

The controller's methods are embedded as pure functions that pass the mutable
state explicitly:

* `State` holds the controller struct (`rdtctl`), the classes of the RDT
  capability library, the list of mutating library calls made so far and the
  calls made to the logger so far;
* `Container` is the handle of the cache; hooks that call `ClearPending`
  return the updated handle;
* `Env` holds what the outside world answers during one hook call: whether
  monitoring is supported, the task enumeration, which library calls fail, and
  Go's `strconv.Quote`.

A Go `error` is embedded as `Option String` (`none` is `nil`, `some msg` is an
error with message `msg`).
-/

set_option autoImplicit false

namespace Rdt

/-! ## Data model -/

/-- Monitoring group of a class: its name, its annotations and the process IDs
that were added to it. -/
structure MonGroup where
  name : String
  annotations : List (String × String)
  pids : List String
deriving DecidableEq, Repr

/-- RDT class (`rdt.CtrlGroup`): its name, the process IDs that were added to
it, and its monitoring groups. -/
structure CtrlGroup where
  name : String
  pids : List String
  monGroups : List MonGroup
deriving DecidableEq, Repr

/-- Pod handle of the cache (`cache.Pod`), restricted to the two getters the
controller calls: `GetName` and `GetCgroupParentDir`. -/
structure Pod where
  name : String
  cgroupParentDir : String
deriving DecidableEq, Repr

/-- Container handle of the cache (`cache.Container`), restricted to the getters
the controller calls: `GetID`, `GetName`, `PrettyName`, `GetRDTClass`, `GetPod`
(`none` when the pod is not found) and the set of pending controllers. -/
structure Container where
  id : String
  name : String
  prettyName : String
  rdtClass : String
  pod : Option Pod
  pending : List String
deriving DecidableEq, Repr

/-- Mutating call made to the capability library. -/
inductive Call where
  | addPids (cls : String) (pids : List String)
  | createMonGroup (cls : String) (name : String) (annotations : List (String × String))
  | monAddPids (cls : String) (mg : String) (pids : List String)
  | deleteMonGroup (cls : String) (name : String)
deriving DecidableEq, Repr

/-- Severity of a call to the logger. -/
inductive Level where
  | info
  | warn
deriving DecidableEq, Repr

/-- The struct `rdtctl`: the runtime state of the controller. The field `cache` is
stored by `Start` and read by no hook, so only `idle` is kept; `none` is the nil
pointer ("not computed yet"). -/
structure rdtctl where
  idle : Option Bool
deriving DecidableEq, Repr

/-- Everything a hook can change besides the container handle. An entry of `logs`
is one call to the logger: the severity, the format and the arguments, as the
controller passes them. -/
structure State where
  ctl : rdtctl
  classes : List CtrlGroup
  calls : List Call
  logs : List (Level × String × List String)
deriving DecidableEq, Repr

/-- Answers of the outside world during one hook call. An entry of the form
`...Err` gives the error of the library call with these arguments, `none` when
the call succeeds. `Quote` is `strconv.Quote` of the Go library, the rendering of
a string under the verb `%q`; it is not part of the repository and no property
of it is assumed. -/
structure Env where
  Quote : String → String
  MonSupported : Bool
  GetTasksInContainer : String → String → Except String (List String)
  addPidsErr : String → List String → Option String
  createMonGroupErr : String → String → Option String
  monAddPidsErr : String → String → List String → Option String
  deleteMonGroupErr : String → String → Option String

/-! ## Formatting -/

/-- Rendering of a format with the verbs `%q` and `%v` on string arguments, the
only verbs the controller uses; `quote` renders an argument under `%q`. -/
def sprintfAux (quote : String → String) : List Char → List String → List Char
  | [], _ => []
  | '%' :: 'q' :: fmt, a :: args => (quote a).data ++ sprintfAux quote fmt args
  | '%' :: 'v' :: fmt, a :: args => a.data ++ sprintfAux quote fmt args
  | ch :: fmt, args => ch :: sprintfAux quote fmt args

/-- Go `fmt.Sprintf` on string arguments. -/
def sprintf (quote : String → String) (format : String) (args : List String) : String :=
  String.mk (sprintfAux quote format.data args)

/-- Go `rdtError`: an RDT-controller-specific formatted error message,
`fmt.Errorf("rdt: "+format, args...)`. -/
def rdtError (quote : String → String) (format : String) (args : List String) : String :=
  sprintf quote ("rdt: " ++ format) args

/-- Record a call to the logger (`log.Info`, `log.Warn`). -/
def State.log (s : State) (lvl : Level) (format : String) (args : List String) : State :=
  { s with logs := s.logs ++ [(lvl, format, args)] }

/-- Record a mutating library call. -/
def State.call (s : State) (c : Call) : State :=
  { s with calls := s.calls ++ [c] }

/-! ## The cache: pending-work protocol and QoS class names -/

/-- Modelled from the spec: the controller's fixed name constant (`cache.RDT`,
declared in the cache package). The theorems below hold for any value of it. -/
def RDTController : String := "rdt"

/-- Modelled from the spec: `HasPending(controllerName)` of the cache, "true if
this controller has unfinished work for the container"; the pending set is the
unordered set of controller names attached to the container record. -/
def Container.HasPending (c : Container) (controller : String) : Bool :=
  decide (controller ∈ c.pending)

/-- Modelled from the spec: `ClearPending(controllerName)` of the cache,
"idempotent; clearing an already-cleared name is a no-op". -/
def Container.ClearPending (c : Container) (controller : String) : Container :=
  { c with pending := c.pending.filter (fun n => decide (n ≠ controller)) }

/-- Modelled from the spec: `cache.IsPodQOSClassName`, "the requested class name
matches one of the built-in Kubernetes QoS-derived class names"
(Guaranteed/Burstable/BestEffort). -/
def IsPodQOSClassName (cls : String) : Bool :=
  decide (cls = "Guaranteed" ∨ cls = "Burstable" ∨ cls = "BestEffort")

/-! ## The capability library -/

/-- Modelled from the spec: `GetClass(name) (Class, bool)` of the capability
library, the configured class with this name, if any. -/
def GetClass (classes : List CtrlGroup) (name : String) : Option CtrlGroup :=
  classes.find? (fun g => decide (g.name = name))

/-- Replace the class that `GetClass` finds under `name` by its image under `f`:
the write through a class reference. -/
def modifyClass (name : String) (f : CtrlGroup → CtrlGroup) : List CtrlGroup → List CtrlGroup
  | [] => []
  | g :: gs => if g.name = name then f g :: gs else g :: modifyClass name f gs

/-- Modelled from the spec: per-class `GetMonGroup(name) (MonGroup, bool)`, the
monitoring group of the class keyed by this name, if any. -/
def CtrlGroup.GetMonGroup (g : CtrlGroup) (name : String) : Option MonGroup :=
  g.monGroups.find? (fun m => decide (m.name = name))

/-- Modelled from the spec: the state of a class after a successful
`AddPids(...ids)`: the class has received the process IDs. -/
def CtrlGroup.withPids (g : CtrlGroup) (pids : List String) : CtrlGroup :=
  { g with pids := g.pids ++ pids }

/-- Modelled from the spec: the state of a class after a successful
`CreateMonGroup(id, annotations)`. Monitoring groups are keyed by a unique name,
so a group that already exists under the name is kept as it is. -/
def CtrlGroup.withMonGroup (g : CtrlGroup) (name : String)
    (annotations : List (String × String)) : CtrlGroup :=
  match g.GetMonGroup name with
  | some _ => g
  | none => { g with monGroups := g.monGroups ++ [{ name := name, annotations := annotations, pids := [] }] }

/-- Modelled from the spec: the state of a class after a successful `AddPids(...ids)`
on its monitoring group `mg`. -/
def CtrlGroup.withMonPids (g : CtrlGroup) (mg : String) (pids : List String) : CtrlGroup :=
  { g with
    monGroups := List.map (fun m => if m.name = mg then { m with pids := m.pids ++ pids } else m) g.monGroups }

/-- Modelled from the spec: the state of a class after a successful
`DeleteMonGroup(name)`. -/
def CtrlGroup.withoutMonGroup (g : CtrlGroup) (name : String) : CtrlGroup :=
  { g with monGroups := g.monGroups.filter (fun m => decide (m.name ≠ name)) }

/-- Modelled from the spec: per-class `AddPids(...ids) error` on the class that
`GetClass` returned under `cls`. Which PIDs a failed call has added is not
modelled: a failed call leaves the classes as they are. -/
def AddPids (env : Env) (s : State) (cls : String) (pids : List String) : Option String × State :=
  let s1 := s.call (Call.addPids cls pids)
  match env.addPidsErr cls pids with
  | some e => (some e, s1)
  | none => (none, { s1 with classes := modifyClass cls (fun g => g.withPids pids) s1.classes })

/-- Modelled from the spec: per-class `CreateMonGroup(id, annotations) (MonGroup, error)`;
on success the name of the created group is returned. -/
def CreateMonGroup (env : Env) (s : State) (cls : String) (id : String)
    (annotations : List (String × String)) : Except String String × State :=
  let s1 := s.call (Call.createMonGroup cls id annotations)
  match env.createMonGroupErr cls id with
  | some e => (Except.error e, s1)
  | none =>
    (Except.ok id, { s1 with classes := modifyClass cls (fun g => g.withMonGroup id annotations) s1.classes })

/-- Modelled from the spec: per-mon-group `AddPids(...ids) error` on the group `mg`
of the class `cls`. A failed call leaves the classes as they are. -/
def MonAddPids (env : Env) (s : State) (cls : String) (mg : String) (pids : List String) :
    Option String × State :=
  let s1 := s.call (Call.monAddPids cls mg pids)
  match env.monAddPidsErr cls mg pids with
  | some e => (some e, s1)
  | none => (none, { s1 with classes := modifyClass cls (fun g => g.withMonPids mg pids) s1.classes })

/-! ## The controller -/

/-- Go `PreCreateHook`: the RDT controller pre-create hook. -/
def PreCreateHook (s : State) (c : Container) : Option String × State × Container :=
  (none, s, c)

/-- Go `PreStartHook`: the RDT controller pre-start hook. -/
def PreStartHook (s : State) (c : Container) : Option String × State × Container :=
  (none, s, c)

/-- Go `isImplicitlyDisabled`: checks if we run without any classes configured. -/
def isImplicitlyDisabled (s : State) : Bool × State :=
  match s.ctl.idle with
  | some b => (b, s)
  | none =>
    let idle := decide (s.classes.length = 0)
    let s1 := if idle then s.log Level.warn "controller implictly disabled (no classes configured)" [] else s
    (idle, { s1 with ctl := { idle := some idle } })

/-- Go `monitor`: starts monitoring a container. -/
def monitor (env : Env) (s : State) (cls : String) (pod name id pretty : String)
    (pids : List String) : Option String × State :=
  if !env.MonSupported then (none, s)
  else
    let annotations := [("pod_name", pod), ("container_name", name)]
    match CreateMonGroup env s cls id annotations with
    | (Except.error err, s1) =>
      (none, s1.log Level.warn "%q: failed to create monitoring group: %v" [pretty, err])
    | (Except.ok mg, s1) =>
      match MonAddPids env s1 cls mg pids with
      | (some err, s2) =>
        (some (rdtError env.Quote "%q: failed to assign to monitoring group %q: %v" [pretty, cls ++ "/" ++ mg, err]), s2)
      | (none, s2) =>
        (none, s2.log Level.info "%q: assigned to monitoring group %q" [pretty, cls ++ "/" ++ mg])

/-- Go `assign`: assigns all processes/threads in a container to an RDT class. -/
def assign (env : Env) (s : State) (c : Container) : Option String × State :=
  let cls := c.rdtClass
  if cls = "" then (none, s)
  else
    let (idle, s1) := isImplicitlyDisabled s
    if idle && IsPodQOSClassName cls then (none, s1)
    else
      match GetClass s1.classes cls with
      | none => (some (rdtError env.Quote "%q: unknown RDT class %q" [c.prettyName, cls]), s1)
      | some cg =>
        match c.pod with
        | none => (some (rdtError env.Quote "%q: failed to get pod" [c.prettyName]), s1)
        | some pod =>
          match env.GetTasksInContainer pod.cgroupParentDir c.id with
          | Except.error err =>
            (some (rdtError env.Quote "%q: failed to get process list: %v" [c.prettyName, err]), s1)
          | Except.ok pids =>
            match AddPids env s1 cg.name pids with
            | (some err, s2) =>
              (some (rdtError env.Quote "%q: failed to assign to class %q: %v" [c.prettyName, cls, err]), s2)
            | (none, s2) =>
              match monitor env s2 cg.name pod.name c.name c.id c.prettyName pids with
              | (some err, s3) => (some err, s3)
              | (none, s3) =>
                (none, s3.log Level.info "%q: assigned to class %q" [c.prettyName, cls])

/-- The loop of Go `stopMonitor` over the classes that `GetClasses` returned: it
gives the error, the classes after the loop and the state (of which the field
`classes` is not used by the loop). -/
def stopMonitorLoop (env : Env) (c : Container) (name : String) :
    List CtrlGroup → State → Option String × List CtrlGroup × State
  | [], s => (none, [], s)
  | cls :: rest, s =>
    match cls.GetMonGroup name with
    | some mg =>
      let s1 := s.call (Call.deleteMonGroup cls.name name)
      match env.deleteMonGroupErr cls.name name with
      | some err => (some err, cls :: rest, s1)
      | none =>
        let s2 := s1.log Level.info "%q: removed monitoring group %q"
          [c.prettyName, cls.name ++ "/" ++ mg.name]
        match stopMonitorLoop env c name rest s2 with
        | (r, rest1, s3) => (r, cls.withoutMonGroup name :: rest1, s3)
    | none =>
      match stopMonitorLoop env c name rest s with
      | (r, rest1, s1) => (r, cls :: rest1, s1)

/-- Go `stopMonitor`: stops monitoring a container. -/
def stopMonitor (env : Env) (s : State) (c : Container) : Option String × State :=
  let name := c.prettyName
  match stopMonitorLoop env c name s.classes s with
  | (r, classes, s1) => (r, { s1 with classes := classes })

/-- Go `PostStartHook`: the RDT controller post-start hook. -/
def PostStartHook (env : Env) (s : State) (c : Container) : Option String × State × Container :=
  if !c.HasPending RDTController then (none, s, c)
  else
    match assign env s c with
    | (some err, s1) => (some err, s1, c)
    | (none, s1) => (none, s1, c.ClearPending RDTController)

/-- Go `PostUpdateHook`: the RDT controller post-update hook. -/
def PostUpdateHook (env : Env) (s : State) (c : Container) : Option String × State × Container :=
  if !c.HasPending RDTController then (none, s, c)
  else
    let s1 :=
      match stopMonitor env s c with
      | (some err, s1) => s1.log Level.warn "%q: failed to remove monitoring group: %v" [c.prettyName, err]
      | (none, s1) => s1
    match assign env s1 c with
    | (some err, s2) => (some err, s2, c)
    | (none, s2) => (none, s2, c.ClearPending RDTController)

/-- Go `PostStopHook`: the RDT controller post-stop hook. -/
def PostStopHook (env : Env) (s : State) (c : Container) : Option String × State × Container :=
  match stopMonitor env s c with
  | (some err, s1) =>
    (some (rdtError env.Quote "%q: failed to remove monitoring group: %v" [c.prettyName, err]), s1, c)
  | (none, s1) => (none, s1, c)

/-- Go `configNotify`: the runtime configuration notification callback. The event
and the source are not read. -/
def configNotify (s : State) : Option String × State :=
  let s1 := s.log Level.info "configuration updated" []
  (none, { s1 with ctl := { idle := none } })

/-! ## Concrete inputs -/

/-- An outside world in which monitoring is supported, the container has the
tasks 100 and 101, and every library call succeeds. The names used in the inputs
below hold only printable ASCII characters other than the double quote and the
backslash; Go quotes such a string by putting it between double quotes. -/
def envAllOk : Env :=
  { Quote := fun s => "\"" ++ s ++ "\""
    MonSupported := true
    GetTasksInContainer := fun _ _ => Except.ok ["100", "101"]
    addPidsErr := fun _ _ => none
    createMonGroupErr := fun _ _ => none
    monAddPidsErr := fun _ _ _ => none
    deleteMonGroupErr := fun _ _ => none }

/-- A fresh controller with the classes Guaranteed and BestEffort configured. -/
def stTwoClasses : State :=
  { ctl := { idle := none }
    classes := [{ name := "Guaranteed", pids := [], monGroups := [] },
                { name := "BestEffort", pids := [], monGroups := [] }]
    calls := []
    logs := [] }

/-- A fresh controller with no class configured. -/
def stNoClasses : State :=
  { ctl := { idle := none }, classes := [], calls := [], logs := [] }

/-- A container of pod `pod` that requests the class Guaranteed and has RDT
pending. -/
def ctrGuaranteed : Container :=
  { id := "c1", name := "ctr", prettyName := "pod:ctr", rdtClass := "Guaranteed",
    pod := some { name := "pod", cgroupParentDir := "/kubepods" }, pending := [RDTController] }

/-- A container that requests no class and has RDT pending. -/
def ctrNoClass : Container :=
  { id := "c2", name := "ctr", prettyName := "pod:ctr", rdtClass := "",
    pod := some { name := "pod", cgroupParentDir := "/kubepods" }, pending := [RDTController] }

/-- A controller whose cached idle flag says "not idle" while the library holds no
class. -/
def stCachedActiveNoClasses : State :=
  { ctl := { idle := some false }, classes := [], calls := [], logs := [] }

/-- A container that requests the class gold, which is not a QoS class name, and
has RDT pending. -/
def ctrGold : Container :=
  { id := "c3", name := "ctr", prettyName := "pod:ctr", rdtClass := "gold",
    pod := some { name := "pod", cgroupParentDir := "/kubepods" }, pending := [RDTController] }

/-- An outside world like `envAllOk` in which adding PIDs to a class fails. -/
def envAddPidsFails : Env :=
  { envAllOk with addPidsErr := fun _ _ => some "write failed" }

/-- An outside world like `envAllOk` in which creating a monitoring group fails. -/
def envCreateMonGroupFails : Env :=
  { envAllOk with createMonGroupErr := fun _ _ => some "mkdir failed" }

/-- An outside world like `envAllOk` in which adding PIDs to a monitoring group
fails. -/
def envMonAddPidsFails : Env :=
  { envAllOk with monAddPidsErr := fun _ _ _ => some "write failed" }

/-- The state after `PostStartHook` on `ctrGuaranteed` from `stTwoClasses`. -/
def stAfterStart : State :=
  (PostStartHook envAllOk stTwoClasses ctrGuaranteed).2.1

/-- The container `ctrGuaranteed` after its start hook, once its requested class
was changed to BestEffort and RDT was marked pending again. -/
def ctrMovedToBestEffort : Container :=
  { (PostStartHook envAllOk stTwoClasses ctrGuaranteed).2.2 with
    rdtClass := "BestEffort", pending := [RDTController] }

/-- A container like `ctrGuaranteed` whose pretty name equals its container ID. -/
def ctrPrettyIsID : Container :=
  { ctrGuaranteed with prettyName := "c1" }

/-- An outside world like `envAllOk` in which monitoring is not supported. -/
def envMonUnsupported : Env :=
  { envAllOk with MonSupported := false }

/-- An outside world like `envAllOk` in which deleting a monitoring group of the
class Guaranteed fails. -/
def envDeleteFails : Env :=
  { envAllOk with
    deleteMonGroupErr := fun cls _ => if cls = "Guaranteed" then some "rmdir failed" else none }

/-- A controller state in which both Guaranteed and BestEffort hold a monitoring
group keyed by the pretty name of `ctrGuaranteed`, next to a group of another
container. -/
def stGroupsUnderPrettyName : State :=
  { ctl := { idle := none }
    classes :=
      [{ name := "Guaranteed", pids := ["100"],
         monGroups := [{ name := "pod:ctr", annotations := [], pids := ["100"] },
                       { name := "other", annotations := [], pids := ["7"] }] },
       { name := "BestEffort", pids := [],
         monGroups := [{ name := "pod:ctr", annotations := [], pids := ["100"] }] }]
    calls := []
    logs := [] }

/-- A container like `ctrGuaranteed` whose pod is not found in the cache. -/
def ctrNoPod : Container :=
  { ctrGuaranteed with pod := none }

/-- An outside world like `envAllOk` in which the task enumeration fails. -/
def envTasksFail : Env :=
  { envAllOk with GetTasksInContainer := fun _ _ => Except.error "no such cgroup" }

/-! ## Lemmas on the parts -/

theorem isImplicitlyDisabled_fst (s : State) :
    (isImplicitlyDisabled s).1 = s.ctl.idle.getD (decide (s.classes.length = 0)) := by
  unfold isImplicitlyDisabled
  cases h : s.ctl.idle <;> simp

theorem isImplicitlyDisabled_classes (s : State) :
    (isImplicitlyDisabled s).2.classes = s.classes := by
  unfold isImplicitlyDisabled
  cases h : s.ctl.idle
  · by_cases h0 : s.classes.length = 0 <;> simp [h0, State.log]
  · simp

theorem isImplicitlyDisabled_calls (s : State) :
    (isImplicitlyDisabled s).2.calls = s.calls := by
  unfold isImplicitlyDisabled
  cases h : s.ctl.idle
  · by_cases h0 : s.classes.length = 0 <;> simp [h0, State.log]
  · simp

theorem stopMonitorLoop_no_group (env : Env) (c : Container) (name : String)
    (classes : List CtrlGroup) (s : State)
    (h : ∀ g ∈ classes, g.GetMonGroup name = none) :
    stopMonitorLoop env c name classes s = (none, classes, s) := by
  induction classes with
  | nil => rfl
  | cons g gs ih =>
    have hg : g.GetMonGroup name = none := h g (List.mem_cons_self g gs)
    have hgs : ∀ g1 ∈ gs, g1.GetMonGroup name = none :=
      fun g1 h1 => h g1 (List.mem_cons_of_mem g h1)
    simp [stopMonitorLoop, hg, ih hgs]

theorem stopMonitor_no_group (env : Env) (s : State) (c : Container)
    (h : ∀ g ∈ s.classes, g.GetMonGroup c.prettyName = none) :
    stopMonitor env s c = (none, s) := by
  simp [stopMonitor, stopMonitorLoop_no_group env c c.prettyName s.classes s h]

theorem HasPending_ClearPending (c : Container) (n : String) :
    (c.ClearPending n).HasPending n = false := by
  simp [Container.HasPending, Container.ClearPending, List.mem_filter]

theorem GetClass_name {classes : List CtrlGroup} {n : String} {cg : CtrlGroup}
    (h : GetClass classes n = some cg) : cg.name = n := by
  have := List.find?_some h
  simpa using this

theorem GetClass_ne_nil {classes : List CtrlGroup} {n : String} {cg : CtrlGroup}
    (h : GetClass classes n = some cg) : classes ≠ [] := by
  intro h0
  rw [h0] at h
  simp [GetClass] at h

theorem GetClass_modifyClass (n : String) (f : CtrlGroup → CtrlGroup)
    (hf : ∀ g, (f g).name = g.name) (classes : List CtrlGroup) :
    GetClass (modifyClass n f classes) n = (GetClass classes n).map f := by
  induction classes with
  | nil => rfl
  | cons g gs ih =>
    by_cases hg : g.name = n
    · simp [GetClass, modifyClass, hg, hf]
    · have ih2 : List.find? (fun g => decide (g.name = n)) (modifyClass n f gs)
          = Option.map f (List.find? (fun g => decide (g.name = n)) gs) := ih
      simp [GetClass, modifyClass, hg, ih2]

theorem withPids_name (g : CtrlGroup) (P : List String) : (g.withPids P).name = g.name := rfl

theorem withMonPids_name (g : CtrlGroup) (n : String) (P : List String) :
    (g.withMonPids n P).name = g.name := rfl

theorem withMonGroup_name (g : CtrlGroup) (n : String) (a : List (String × String)) :
    (g.withMonGroup n a).name = g.name := by
  unfold CtrlGroup.withMonGroup
  cases g.GetMonGroup n <;> rfl

theorem withMonGroup_pids (g : CtrlGroup) (n : String) (a : List (String × String)) :
    (g.withMonGroup n a).pids = g.pids := by
  unfold CtrlGroup.withMonGroup
  cases g.GetMonGroup n <;> rfl

theorem GetMonGroup_name {g : CtrlGroup} {n : String} {m : MonGroup}
    (h : g.GetMonGroup n = some m) : m.name = n := by
  have := List.find?_some h
  simpa using this

theorem GetMonGroup_withMonGroup (g : CtrlGroup) (n : String) (a : List (String × String)) :
    (g.withMonGroup n a).GetMonGroup n
      = some ((g.GetMonGroup n).getD { name := n, annotations := a, pids := [] }) := by
  unfold CtrlGroup.withMonGroup
  cases h : g.GetMonGroup n with
  | some m => simp [h]
  | none =>
    have h2 : List.find? (fun m => decide (m.name = n)) g.monGroups = none := h
    simp [CtrlGroup.GetMonGroup, List.find?_append, h2]

theorem GetMonGroup_withMonPids (g : CtrlGroup) (n : String) (P : List String) :
    (g.withMonPids n P).GetMonGroup n
      = (g.GetMonGroup n).map (fun m => { m with pids := m.pids ++ P }) := by
  cases g with
  | mk name pids monGroups =>
    simp only [CtrlGroup.withMonPids, CtrlGroup.GetMonGroup]
    induction monGroups with
    | nil => rfl
    | cons m ms ih =>
      by_cases hm : m.name = n
      · simp [hm]
      · simp [hm, ih]

theorem isImplicitlyDisabled_active (s : State) (hidle : s.ctl.idle ≠ some true)
    (hcls : s.classes ≠ []) :
    isImplicitlyDisabled s = (false, { s with ctl := { idle := some false } }) := by
  unfold isImplicitlyDisabled
  cases h : s.ctl.idle with
  | none => simp [hcls]
  | some b =>
    cases b with
    | true => exact absurd h hidle
    | false =>
      cases s with
      | mk ctl classes calls logs =>
        cases ctl with
        | mk idle =>
          simp at h
          simp [h]

/-- The result of `assign` when the class, the pod and the tasks are found, the
shortcut for an idle controller is not taken, monitoring is supported and the
three library calls succeed. -/
theorem assign_all_ok (env : Env) (s : State) (c : Container) (cg : CtrlGroup) (pod : Pod)
    (P : List String)
    (hne : c.rdtClass ≠ "")
    (hcls : GetClass s.classes c.rdtClass = some cg)
    (hpod : c.pod = some pod)
    (htasks : env.GetTasksInContainer pod.cgroupParentDir c.id = Except.ok P)
    (hidle : s.ctl.idle ≠ some true)
    (hmon : env.MonSupported = true)
    (hadd : env.addPidsErr c.rdtClass P = none)
    (hcreate : env.createMonGroupErr c.rdtClass c.id = none)
    (hmadd : env.monAddPidsErr c.rdtClass c.id P = none) :
    assign env s c = (none,
      { ctl := { idle := some false }
        classes :=
          modifyClass c.rdtClass (fun g => g.withMonPids c.id P)
            (modifyClass c.rdtClass
              (fun g => g.withMonGroup c.id [("pod_name", pod.name), ("container_name", c.name)])
              (modifyClass c.rdtClass (fun g => g.withPids P) s.classes))
        calls := s.calls ++
          [Call.addPids c.rdtClass P,
           Call.createMonGroup c.rdtClass c.id [("pod_name", pod.name), ("container_name", c.name)],
           Call.monAddPids c.rdtClass c.id P]
        logs := s.logs ++
          [(Level.info, "%q: assigned to monitoring group %q",
              [c.prettyName, c.rdtClass ++ "/" ++ c.id]),
           (Level.info, "%q: assigned to class %q", [c.prettyName, c.rdtClass])] }) := by
  have hname := GetClass_name hcls
  have hnil := GetClass_ne_nil hcls
  simp [assign, hne, isImplicitlyDisabled_active s hidle hnil, hcls, hpod, htasks, AddPids, hname,
    hadd, monitor, hmon, CreateMonGroup, hcreate, MonAddPids, hmadd, State.call, State.log]

theorem AddPids_fst (env : Env) (s : State) (cls : String) (P : List String) :
    (AddPids env s cls P).1 = env.addPidsErr cls P := by
  unfold AddPids
  cases env.addPidsErr cls P <;> rfl

theorem monitor_fst (env : Env) (s : State) (cls pod name id pretty : String) (P : List String) :
    (monitor env s cls pod name id pretty P).1 =
      if env.MonSupported then
        match env.createMonGroupErr cls id with
        | some _ => none
        | none => (env.monAddPidsErr cls id P).map
            (fun e => rdtError env.Quote "%q: failed to assign to monitoring group %q: %v"
              [pretty, cls ++ "/" ++ id, e])
      else none := by
  unfold monitor CreateMonGroup MonAddPids
  cases env.MonSupported with
  | false => rfl
  | true =>
    cases env.createMonGroupErr cls id with
    | some e => rfl
    | none =>
      cases h : env.monAddPidsErr cls id P with
      | some e => simp [h]
      | none => simp [h]

theorem assign_fst (env : Env) (s : State) (c : Container) :
    (assign env s c).1 =
      if c.rdtClass = "" then none
      else if (isImplicitlyDisabled s).1 && IsPodQOSClassName c.rdtClass then none
      else
        match GetClass s.classes c.rdtClass with
        | none => some (rdtError env.Quote "%q: unknown RDT class %q" [c.prettyName, c.rdtClass])
        | some _ =>
          match c.pod with
          | none => some (rdtError env.Quote "%q: failed to get pod" [c.prettyName])
          | some pod =>
            match env.GetTasksInContainer pod.cgroupParentDir c.id with
            | Except.error err =>
              some (rdtError env.Quote "%q: failed to get process list: %v" [c.prettyName, err])
            | Except.ok pids =>
              match env.addPidsErr c.rdtClass pids with
              | some err =>
                some (rdtError env.Quote "%q: failed to assign to class %q: %v" [c.prettyName, c.rdtClass, err])
              | none =>
                if env.MonSupported then
                  match env.createMonGroupErr c.rdtClass c.id with
                  | some _ => none
                  | none => (env.monAddPidsErr c.rdtClass c.id pids).map
                      (fun e => rdtError env.Quote "%q: failed to assign to monitoring group %q: %v"
                        [c.prettyName, c.rdtClass ++ "/" ++ c.id, e])
                else none := by
  unfold assign
  by_cases hne : c.rdtClass = ""
  · simp [hne]
  · simp only [hne, if_false]
    rcases hi : isImplicitlyDisabled s with ⟨idle, s1⟩
    have hc : s1.classes = s.classes := by
      have := isImplicitlyDisabled_classes s
      rw [hi] at this
      exact this
    simp only []
    by_cases hg : (idle && IsPodQOSClassName c.rdtClass) = true
    · simp [hg]
    · simp only [hg, if_false, hc]
      cases hcls : GetClass s.classes c.rdtClass with
      | none => rfl
      | some cg =>
        have hname := GetClass_name hcls
        cases hpod : c.pod with
        | none => rfl
        | some pod =>
          simp only []
          cases ht : env.GetTasksInContainer pod.cgroupParentDir c.id with
          | error err => rfl
          | ok pids =>
            simp only []
            rcases ha : AddPids env s1 cg.name pids with ⟨r, s2⟩
            have ha1 := AddPids_fst env s1 cg.name pids
            rw [ha, hname] at ha1
            simp only [] at ha1
            subst ha1
            cases hadd : env.addPidsErr c.rdtClass pids with
            | some err => rfl
            | none =>
              simp only []
              rcases hm : monitor env s2 cg.name pod.name c.name c.id c.prettyName pids with ⟨r2, s3⟩
              have hm1 := monitor_fst env s2 cg.name pod.name c.name c.id c.prettyName pids
              rw [hm, hname] at hm1
              simp only [] at hm1
              rw [← hm1]
              cases r2 <;> rfl

theorem stopMonitorLoop_frame (env : Env) (c : Container) (name : String)
    (classes : List CtrlGroup) (s : State) :
    (stopMonitorLoop env c name classes s).2.1.map CtrlGroup.name = classes.map CtrlGroup.name ∧
    (stopMonitorLoop env c name classes s).2.2.ctl = s.ctl := by
  induction classes generalizing s with
  | nil => exact ⟨rfl, rfl⟩
  | cons g gs ih =>
    cases hg : g.GetMonGroup name with
    | none =>
      have h := ih s
      simp only [stopMonitorLoop, hg]
      exact ⟨by simp [h.1], h.2⟩
    | some mg =>
      cases hd : env.deleteMonGroupErr g.name name with
      | some err =>
        simp [stopMonitorLoop, hg, hd, State.call]
      | none =>
        have h := ih ((s.call (Call.deleteMonGroup g.name name)).log Level.info
          "%q: removed monitoring group %q" [c.prettyName, g.name ++ "/" ++ mg.name])
        simp only [stopMonitorLoop, hg, hd]
        exact ⟨by simp [h.1, CtrlGroup.withoutMonGroup], h.2⟩

theorem stopMonitor_frame (env : Env) (s : State) (c : Container) :
    (stopMonitor env s c).2.ctl = s.ctl ∧
    (stopMonitor env s c).2.classes.map CtrlGroup.name = s.classes.map CtrlGroup.name := by
  have h := stopMonitorLoop_frame env c c.prettyName s.classes s
  simp only [stopMonitor]
  exact ⟨h.2, h.1⟩

theorem GetClass_isSome (classes : List CtrlGroup) (n : String) :
    (GetClass classes n).isSome = decide (n ∈ classes.map CtrlGroup.name) := by
  induction classes with
  | nil => rfl
  | cons g gs ih =>
    by_cases hg : g.name = n
    · simp [GetClass, hg]
    · have ih2 : (List.find? (fun g => decide (g.name = n)) gs).isSome
          = decide (n ∈ gs.map CtrlGroup.name) := ih
      have hg2 : ¬ n = g.name := fun h => hg h.symm
      simp only [GetClass, List.find?_cons, hg, decide_False, List.map_cons, List.mem_cons, hg2,
        false_or]
      exact ih2

/-- The error of `assign` depends on the state only through the idle flag and the
names of the configured classes. -/
theorem assign_fst_congr (env : Env) (s s1 : State) (c : Container)
    (hctl : s1.ctl = s.ctl)
    (hnames : s1.classes.map CtrlGroup.name = s.classes.map CtrlGroup.name) :
    (assign env s1 c).1 = (assign env s c).1 := by
  have hlen : s1.classes.length = s.classes.length := by
    have := congrArg List.length hnames
    simpa using this
  have hidle : (isImplicitlyDisabled s1).1 = (isImplicitlyDisabled s).1 := by
    rw [isImplicitlyDisabled_fst, isImplicitlyDisabled_fst, hctl, hlen]
  have hsome : (GetClass s1.classes c.rdtClass).isSome = (GetClass s.classes c.rdtClass).isSome := by
    rw [GetClass_isSome, GetClass_isSome, hnames]
  rw [assign_fst, assign_fst, hidle]
  cases h1 : GetClass s1.classes c.rdtClass <;> cases h2 : GetClass s.classes c.rdtClass <;>
    simp [h1, h2] at hsome ⊢

theorem PostStartHook_pending (env : Env) (s : State) (c : Container)
    (hpend : c.HasPending RDTController = true) :
    PostStartHook env s c = ((assign env s c).1, (assign env s c).2,
      if (assign env s c).1 = none then c.ClearPending RDTController else c) := by
  unfold PostStartHook
  rcases ha : assign env s c with ⟨r, s1⟩
  cases r <;> simp [hpend]

theorem PostUpdateHook_pending (env : Env) (s : State) (c : Container)
    (hpend : c.HasPending RDTController = true) :
    ∃ s1 : State, s1.ctl = s.ctl ∧
      s1.classes.map CtrlGroup.name = s.classes.map CtrlGroup.name ∧
      PostUpdateHook env s c = ((assign env s1 c).1, (assign env s1 c).2,
        if (assign env s1 c).1 = none then c.ClearPending RDTController else c) := by
  have hf := stopMonitor_frame env s c
  unfold PostUpdateHook
  rcases hs : stopMonitor env s c with ⟨r, s1⟩
  rw [hs] at hf
  cases r with
  | none =>
    refine ⟨s1, hf.1, hf.2, ?_⟩
    rcases ha : assign env s1 c with ⟨r2, s2⟩
    cases r2 <;> simp [hpend, ha]
  | some err =>
    refine ⟨s1.log Level.warn "%q: failed to remove monitoring group: %v" [c.prettyName, err],
      hf.1, hf.2, ?_⟩
    rcases ha : assign env
      (s1.log Level.warn "%q: failed to remove monitoring group: %v" [c.prettyName, err]) c
      with ⟨r2, s2⟩
    cases r2 <;> simp [hpend, ha]

theorem PostStartHook_fst (env : Env) (s : State) (c : Container)
    (hpend : c.HasPending RDTController = true) :
    (PostStartHook env s c).1 = (assign env s c).1 := by
  rw [PostStartHook_pending env s c hpend]

theorem PostUpdateHook_fst (env : Env) (s : State) (c : Container)
    (hpend : c.HasPending RDTController = true) :
    (PostUpdateHook env s c).1 = (assign env s c).1 := by
  obtain ⟨s1, hctl, hnames, h⟩ := PostUpdateHook_pending env s c hpend
  rw [h]
  exact assign_fst_congr env s s1 c hctl hnames

theorem mem_ClearPending (c : Container) (r n : String) :
    n ∈ (c.ClearPending r).pending ↔ n ∈ c.pending ∧ n ≠ r := by
  simp [Container.ClearPending, List.mem_filter]

theorem PostStartHook_container (env : Env) (s : State) (c : Container) :
    (PostStartHook env s c).2.2 =
      if c.HasPending RDTController = true ∧ (PostStartHook env s c).1 = none
      then c.ClearPending RDTController else c := by
  by_cases hpend : c.HasPending RDTController = true
  · rw [PostStartHook_pending env s c hpend]
    simp [hpend]
  · simp [PostStartHook, hpend]

theorem PostUpdateHook_container (env : Env) (s : State) (c : Container) :
    (PostUpdateHook env s c).2.2 =
      if c.HasPending RDTController = true ∧ (PostUpdateHook env s c).1 = none
      then c.ClearPending RDTController else c := by
  by_cases hpend : c.HasPending RDTController = true
  · obtain ⟨s1, _, _, h⟩ := PostUpdateHook_pending env s c hpend
    rw [h]
    simp [hpend]
  · simp [PostUpdateHook, hpend]

theorem PostStopHook_container (env : Env) (s : State) (c : Container) :
    (PostStopHook env s c).2.2 = c := by
  unfold PostStopHook
  rcases hs : stopMonitor env s c with ⟨r, s1⟩
  cases r <;> rfl

theorem sprintfAux_rdt (quote : String → String) (fmt : List Char) (args : List String) :
    sprintfAux quote ('r' :: 'd' :: 't' :: ':' :: ' ' :: fmt) args
      = 'r' :: 'd' :: 't' :: ':' :: ' ' :: sprintfAux quote fmt args := by
  simp [sprintfAux]

theorem rdtError_rdt (quote : String → String) (format : String) (args : List String) :
    rdtError quote format args = "rdt: " ++ sprintf quote format args := by
  unfold rdtError sprintf
  have h : ("rdt: " ++ format).data = 'r' :: 'd' :: 't' :: ':' :: ' ' :: format.data := rfl
  rw [h, sprintfAux_rdt]
  rfl

theorem monitor_unsupported (env : Env) (s : State) (cls pod name id pretty : String)
    (P : List String) (h : env.MonSupported = false) :
    monitor env s cls pod name id pretty P = (none, s) := by
  simp [monitor, h]

theorem monitor_create_fails (env : Env) (s : State) (cls pod name id pretty : String)
    (P : List String) (err : String) (h : env.MonSupported = true)
    (hc : env.createMonGroupErr cls id = some err) :
    monitor env s cls pod name id pretty P = (none,
      { s with
        calls := s.calls ++ [Call.createMonGroup cls id [("pod_name", pod), ("container_name", name)]]
        logs := s.logs ++
          [(Level.warn, "%q: failed to create monitoring group: %v", [pretty, err])] }) := by
  simp [monitor, h, CreateMonGroup, hc, State.call, State.log]

theorem monitor_created (env : Env) (s : State) (cls pod name id pretty : String)
    (P : List String) (h : env.MonSupported = true)
    (hc : env.createMonGroupErr cls id = none) :
    (monitor env s cls pod name id pretty P).2.calls = s.calls ++
      [Call.createMonGroup cls id [("pod_name", pod), ("container_name", name)],
       Call.monAddPids cls id P] := by
  cases hm : env.monAddPidsErr cls id P <;>
    simp [monitor, h, CreateMonGroup, hc, MonAddPids, hm, State.call, State.log]

theorem withoutMonGroup_of_no_group (g : CtrlGroup) (n : String)
    (h : g.GetMonGroup n = none) : g.withoutMonGroup n = g := by
  cases g with
  | mk name pids monGroups =>
    have h2 : ∀ m ∈ monGroups, ¬ m.name = n := by
      simpa [CtrlGroup.GetMonGroup, List.find?_eq_none] using h
    simp only [CtrlGroup.withoutMonGroup, CtrlGroup.mk.injEq, true_and]
    rw [List.filter_eq_self]
    intro m hm
    simpa using h2 m hm

theorem GetMonGroup_withoutMonGroup (g : CtrlGroup) (n : String) :
    (g.withoutMonGroup n).GetMonGroup n = none := by
  simp [CtrlGroup.withoutMonGroup, CtrlGroup.GetMonGroup, List.find?_eq_none, List.mem_filter]

theorem stopMonitorLoop_success (env : Env) (c : Container) (name : String)
    (classes : List CtrlGroup) (s : State) (cl1 : List CtrlGroup) (s1 : State)
    (h : stopMonitorLoop env c name classes s = (none, cl1, s1)) :
    (∀ g ∈ classes, g.GetMonGroup name ≠ none → env.deleteMonGroupErr g.name name = none) ∧
    cl1 = classes.map (fun g => g.withoutMonGroup name) ∧
    s1.calls = s.calls ++
      (classes.filter (fun g => (g.GetMonGroup name).isSome)).map
        (fun g => Call.deleteMonGroup g.name name) := by
  induction classes generalizing s cl1 with
  | nil =>
    simp [stopMonitorLoop] at h
    obtain ⟨h1, h2⟩ := h
    subst h1 h2
    simp
  | cons g gs ih =>
    cases hg : g.GetMonGroup name with
    | none =>
      rcases hr : stopMonitorLoop env c name gs s with ⟨r, rest1, s2⟩
      simp only [stopMonitorLoop, hg, hr, Prod.mk.injEq] at h
      obtain ⟨h1, h2, h3⟩ := h
      subst h1 h2 h3
      obtain ⟨i1, i2, i3⟩ := ih s rest1 hr
      refine ⟨?_, ?_, ?_⟩
      · intro g1 hg1 hne
        rcases List.mem_cons.mp hg1 with e | e
        · subst e
          exact absurd hg hne
        · exact i1 g1 e hne
      · simp [i2, withoutMonGroup_of_no_group g name hg]
      · simp [i3, hg]
    | some mg =>
      cases hd : env.deleteMonGroupErr g.name name with
      | some err => simp [stopMonitorLoop, hg, hd] at h
      | none =>
        rcases hr : stopMonitorLoop env c name gs
          ((s.call (Call.deleteMonGroup g.name name)).log Level.info
            "%q: removed monitoring group %q" [c.prettyName, g.name ++ "/" ++ mg.name])
          with ⟨r, rest1, s2⟩
        simp only [stopMonitorLoop, hg, hd, hr, Prod.mk.injEq] at h
        obtain ⟨h1, h2, h3⟩ := h
        subst h1 h2 h3
        obtain ⟨i1, i2, i3⟩ := ih _ rest1 hr
        refine ⟨?_, ?_, ?_⟩
        · intro g1 hg1 hne
          rcases List.mem_cons.mp hg1 with e | e
          · subst e
            exact hd
          · exact i1 g1 e hne
        · simp [i2]
        · simp [i3, hg, State.call, State.log]

theorem stopMonitorLoop_failure (env : Env) (c : Container) (name : String)
    (classes : List CtrlGroup) (s : State) (err : String) (cl1 : List CtrlGroup) (s1 : State)
    (h : stopMonitorLoop env c name classes s = (some err, cl1, s1)) :
    ∃ (pre : List CtrlGroup) (g : CtrlGroup) (post : List CtrlGroup),
      classes = pre ++ g :: post ∧
      (∀ g0 ∈ pre, g0.GetMonGroup name ≠ none → env.deleteMonGroupErr g0.name name = none) ∧
      g.GetMonGroup name ≠ none ∧
      env.deleteMonGroupErr g.name name = some err ∧
      cl1 = pre.map (fun g0 => g0.withoutMonGroup name) ++ g :: post ∧
      s1.calls = s.calls ++
        (pre.filter (fun g0 => (g0.GetMonGroup name).isSome)).map
          (fun g0 => Call.deleteMonGroup g0.name name) ++ [Call.deleteMonGroup g.name name] := by
  induction classes generalizing s cl1 with
  | nil => simp [stopMonitorLoop] at h
  | cons g gs ih =>
    cases hg : g.GetMonGroup name with
    | none =>
      rcases hr : stopMonitorLoop env c name gs s with ⟨r, rest1, s2⟩
      simp only [stopMonitorLoop, hg, hr, Prod.mk.injEq] at h
      obtain ⟨h1, h2, h3⟩ := h
      subst h1 h2 h3
      obtain ⟨pre, g1, post, e1, e2, e3, e4, e5, e6⟩ := ih s rest1 hr
      refine ⟨g :: pre, g1, post, by simp [e1], ?_, e3, e4, ?_, ?_⟩
      · intro g0 hg0 hne
        rcases List.mem_cons.mp hg0 with e | e
        · subst e
          exact absurd hg hne
        · exact e2 g0 e hne
      · simp [e5, withoutMonGroup_of_no_group g name hg]
      · simp [e6, hg]
    | some mg =>
      cases hd : env.deleteMonGroupErr g.name name with
      | some err1 =>
        simp only [stopMonitorLoop, hg, hd, Prod.mk.injEq, Option.some.injEq] at h
        obtain ⟨h1, h2, h3⟩ := h
        subst h1 h2 h3
        exact ⟨[], g, gs, rfl, by simp, by simp [hg], hd, rfl, by simp [State.call]⟩
      | none =>
        rcases hr : stopMonitorLoop env c name gs
          ((s.call (Call.deleteMonGroup g.name name)).log Level.info
            "%q: removed monitoring group %q" [c.prettyName, g.name ++ "/" ++ mg.name])
          with ⟨r, rest1, s2⟩
        simp only [stopMonitorLoop, hg, hd, hr, Prod.mk.injEq] at h
        obtain ⟨h1, h2, h3⟩ := h
        subst h1 h2 h3
        obtain ⟨pre, g1, post, e1, e2, e3, e4, e5, e6⟩ := ih _ rest1 hr
        refine ⟨g :: pre, g1, post, by simp [e1], ?_, e3, e4, ?_, ?_⟩
        · intro g0 hg0 hne
          rcases List.mem_cons.mp hg0 with e | e
          · subst e
            exact hd
          · exact e2 g0 e hne
        · simp [e5]
        · simp [e6, hg, State.call, State.log]

/-! ## Claims -/

/-- C1: for a container with RDT pending, a non-empty requested class that the
capability library holds, a resolvable pod and a task enumeration returning the
PIDs `P`, when the cached idle flag is unknown or false, monitoring is supported
and the three library calls (class AddPids, CreateMonGroup, group AddPids)
succeed: `PostStartHook` returns success; the library was called exactly for
AddPids of `P` on the class, CreateMonGroup of the container ID under the class
and AddPids of `P` on that group; the class holds its former PIDs followed by
`P`; a monitoring group named by the container ID exists under the class and
holds its former PIDs (none when the group is new) followed by `P`; and RDT is
no longer pending. -/
theorem C1_PostStartHook_assigns_and_monitors (env : Env) (s : State) (c : Container)
    (cg : CtrlGroup) (pod : Pod) (P : List String)
    (hpend : c.HasPending RDTController = true)
    (hne : c.rdtClass ≠ "")
    (hcls : GetClass s.classes c.rdtClass = some cg)
    (hpod : c.pod = some pod)
    (htasks : env.GetTasksInContainer pod.cgroupParentDir c.id = Except.ok P)
    (hidle : s.ctl.idle = none ∨ s.ctl.idle = some false)
    (hmon : env.MonSupported = true)
    (hadd : env.addPidsErr c.rdtClass P = none)
    (hcreate : env.createMonGroupErr c.rdtClass c.id = none)
    (hmadd : env.monAddPidsErr c.rdtClass c.id P = none) :
    ∃ (s1 : State) (c1 : Container) (cg1 : CtrlGroup) (mg1 : MonGroup),
      PostStartHook env s c = (none, s1, c1) ∧
      s1.calls = s.calls ++
        [Call.addPids c.rdtClass P,
         Call.createMonGroup c.rdtClass c.id [("pod_name", pod.name), ("container_name", c.name)],
         Call.monAddPids c.rdtClass c.id P] ∧
      GetClass s1.classes c.rdtClass = some cg1 ∧
      cg1.pids = cg.pids ++ P ∧
      cg1.GetMonGroup c.id = some mg1 ∧
      mg1.name = c.id ∧
      mg1.pids = ((cg.GetMonGroup c.id).map MonGroup.pids).getD [] ++ P ∧
      c1.HasPending RDTController = false := by
  have hidle2 : s.ctl.idle ≠ some true := by
    rcases hidle with h | h <;> simp [h]
  have hA := assign_all_ok env s c cg pod P hne hcls hpod htasks hidle2 hmon hadd hcreate hmadd
  have hG : GetClass
      (modifyClass c.rdtClass (fun g => g.withMonPids c.id P)
        (modifyClass c.rdtClass
          (fun g => g.withMonGroup c.id [("pod_name", pod.name), ("container_name", c.name)])
          (modifyClass c.rdtClass (fun g => g.withPids P) s.classes))) c.rdtClass
      = some (((cg.withPids P).withMonGroup c.id
          [("pod_name", pod.name), ("container_name", c.name)]).withMonPids c.id P) := by
    rw [GetClass_modifyClass _ _ (fun g => withMonPids_name g _ _),
      GetClass_modifyClass _ _ (fun g => withMonGroup_name g _ _),
      GetClass_modifyClass _ _ (fun g => withPids_name g _), hcls]
    rfl
  refine ⟨(assign env s c).2, c.ClearPending RDTController,
    ((cg.withPids P).withMonGroup c.id
      [("pod_name", pod.name), ("container_name", c.name)]).withMonPids c.id P,
    { ((cg.GetMonGroup c.id).getD
        { name := c.id, annotations := [("pod_name", pod.name), ("container_name", c.name)],
          pids := [] }) with
      pids := ((cg.GetMonGroup c.id).getD
        { name := c.id, annotations := [("pod_name", pod.name), ("container_name", c.name)],
          pids := [] }).pids ++ P },
    ?_, ?_, ?_, ?_, ?_, ?_, ?_, HasPending_ClearPending c RDTController⟩
  · simp [PostStartHook, hpend, hA]
  · rw [hA]
  · rw [hA]
    exact hG
  · show ((cg.withPids P).withMonGroup c.id _).pids = cg.pids ++ P
    rw [withMonGroup_pids]
    rfl
  · rw [GetMonGroup_withMonPids, GetMonGroup_withMonGroup]
    rfl
  · show ((((cg.withPids P).GetMonGroup c.id).getD _)).name = c.id
    cases h : (cg.withPids P).GetMonGroup c.id with
    | none => rfl
    | some m => exact GetMonGroup_name h
  · show ((((cg.withPids P).GetMonGroup c.id).getD _)).pids ++ P = _
    have : (cg.withPids P).GetMonGroup c.id = cg.GetMonGroup c.id := rfl
    rw [this]
    cases cg.GetMonGroup c.id <;> rfl

theorem C1_PostStartHook_assigns_and_monitors_witness :
    ∃ (s1 : State) (c1 : Container) (cg1 : CtrlGroup) (mg1 : MonGroup),
      PostStartHook envAllOk stTwoClasses ctrGuaranteed = (none, s1, c1) ∧
      s1.calls = stTwoClasses.calls ++
        [Call.addPids ctrGuaranteed.rdtClass ["100", "101"],
         Call.createMonGroup ctrGuaranteed.rdtClass ctrGuaranteed.id
           [("pod_name", "pod"), ("container_name", ctrGuaranteed.name)],
         Call.monAddPids ctrGuaranteed.rdtClass ctrGuaranteed.id ["100", "101"]] ∧
      GetClass s1.classes ctrGuaranteed.rdtClass = some cg1 ∧
      cg1.pids = [] ++ ["100", "101"] ∧
      cg1.GetMonGroup ctrGuaranteed.id = some mg1 ∧
      mg1.name = ctrGuaranteed.id ∧
      mg1.pids = [] ++ ["100", "101"] ∧
      c1.HasPending RDTController = false :=
  C1_PostStartHook_assigns_and_monitors envAllOk stTwoClasses ctrGuaranteed
    { name := "Guaranteed", pids := [], monGroups := [] }
    { name := "pod", cgroupParentDir := "/kubepods" } ["100", "101"]
    (by decide) (by decide) (by decide) rfl rfl (Or.inl rfl) rfl rfl rfl rfl

/-- C2: the code at a container whose pretty name differs from its container ID.
After a successful `PostStartHook` under Guaranteed, a change of the requested
class to BestEffort with RDT pending again and a successful `PostUpdateHook`, the
library was never asked to delete a monitoring group, and both Guaranteed and
BestEffort hold a monitoring group named by the container ID. For the same
container with a pretty name equal to its ID, the update deletes the group under
Guaranteed and creates the one under BestEffort. -/
theorem C2_update_keeps_old_monitoring_group :
    ctrGuaranteed.id ≠ ctrGuaranteed.prettyName ∧
    (PostStartHook envAllOk stTwoClasses ctrGuaranteed).1 = none ∧
    (PostUpdateHook envAllOk stAfterStart ctrMovedToBestEffort).1 = none ∧
    (∀ cls name, Call.deleteMonGroup cls name ∉
      (PostUpdateHook envAllOk stAfterStart ctrMovedToBestEffort).2.1.calls) ∧
    ((PostUpdateHook envAllOk stAfterStart ctrMovedToBestEffort).2.1.classes.map
        (fun g => (g.name, g.monGroups.map MonGroup.name))
      = [("Guaranteed", ["c1"]), ("BestEffort", ["c1"])]) ∧
    ((PostUpdateHook envAllOk (PostStartHook envAllOk stTwoClasses ctrPrettyIsID).2.1
        { (PostStartHook envAllOk stTwoClasses ctrPrettyIsID).2.2 with
          rdtClass := "BestEffort", pending := [RDTController] }).2.1.classes.map
        (fun g => (g.name, g.monGroups.map MonGroup.name))
      = [("Guaranteed", []), ("BestEffort", ["c1"])]) := by
  refine ⟨by decide, by decide, by decide, ?_, by decide, by decide⟩
  intro cls name h
  have hcalls : (PostUpdateHook envAllOk stAfterStart ctrMovedToBestEffort).2.1.calls =
      [Call.addPids "Guaranteed" ["100", "101"],
       Call.createMonGroup "Guaranteed" "c1" [("pod_name", "pod"), ("container_name", "ctr")],
       Call.monAddPids "Guaranteed" "c1" ["100", "101"],
       Call.addPids "BestEffort" ["100", "101"],
       Call.createMonGroup "BestEffort" "c1" [("pod_name", "pod"), ("container_name", "ctr")],
       Call.monAddPids "BestEffort" "c1" ["100", "101"]] := by decide
  rw [hcalls] at h
  simp at h

/-- C3, as stated, fails: with no class configured and the idle flag not yet
computed, a container with RDT pending that requests Guaranteed (a non-empty name
that the class set does not hold) is assigned with success, and both hooks return
success and clear the pending entry. -/
theorem C3_counterexample_idle_qos_name :
    ctrGuaranteed.HasPending RDTController = true ∧
    ctrGuaranteed.rdtClass ≠ "" ∧
    GetClass stNoClasses.classes ctrGuaranteed.rdtClass = none ∧
    (assign envAllOk stNoClasses ctrGuaranteed).1 = none ∧
    (PostStartHook envAllOk stNoClasses ctrGuaranteed).1 = none ∧
    (PostStartHook envAllOk stNoClasses ctrGuaranteed).2.2.HasPending RDTController = false ∧
    (PostUpdateHook envAllOk stNoClasses ctrGuaranteed).1 = none ∧
    (PostUpdateHook envAllOk stNoClasses ctrGuaranteed).2.2.HasPending RDTController = false := by
  decide

/-- C3, amended: for a container with RDT pending whose requested non-empty class
name is not in the class set of the capability library, in every controller state
in which `isImplicitlyDisabled` answers false or the requested name is not a QoS
class name, `assign` returns the error "unknown RDT class", and `PostStartHook`
and `PostUpdateHook` return that error and leave the container handle, hence the
pending entry, as it was. -/
theorem C3_unknown_class_fails (env : Env) (s : State) (c : Container)
    (hpend : c.HasPending RDTController = true)
    (hne : c.rdtClass ≠ "")
    (hcls : GetClass s.classes c.rdtClass = none)
    (hgate : (isImplicitlyDisabled s).1 = false ∨ IsPodQOSClassName c.rdtClass = false) :
    (assign env s c).1 = some (rdtError env.Quote "%q: unknown RDT class %q" [c.prettyName, c.rdtClass]) ∧
    (PostStartHook env s c).1 = (assign env s c).1 ∧
    (PostStartHook env s c).2.2 = c ∧
    (PostUpdateHook env s c).1 = (assign env s c).1 ∧
    (PostUpdateHook env s c).2.2 = c ∧
    (PostStartHook env s c).2.2.HasPending RDTController = true ∧
    (PostUpdateHook env s c).2.2.HasPending RDTController = true := by
  have hA : (assign env s c).1
      = some (rdtError env.Quote "%q: unknown RDT class %q" [c.prettyName, c.rdtClass]) := by
    rw [assign_fst]
    rcases hgate with h | h <;> simp [hne, hcls, h]
  have h1 := PostStartHook_fst env s c hpend
  have h2 := PostUpdateHook_fst env s c hpend
  have h3 : (PostStartHook env s c).2.2 = c := by
    rw [PostStartHook_container, h1, hA]
    simp
  have h4 : (PostUpdateHook env s c).2.2 = c := by
    rw [PostUpdateHook_container, h2, hA]
    simp
  refine ⟨hA, h1, h3, h2, h4, ?_, ?_⟩
  · rw [h3]
    exact hpend
  · rw [h4]
    exact hpend

theorem C3_unknown_class_fails_witness :
    (assign envAllOk stTwoClasses ctrGold).1
      = some (rdtError envAllOk.Quote "%q: unknown RDT class %q" [ctrGold.prettyName, ctrGold.rdtClass]) ∧
    (PostStartHook envAllOk stTwoClasses ctrGold).1 = (assign envAllOk stTwoClasses ctrGold).1 ∧
    (PostStartHook envAllOk stTwoClasses ctrGold).2.2 = ctrGold ∧
    (PostUpdateHook envAllOk stTwoClasses ctrGold).1 = (assign envAllOk stTwoClasses ctrGold).1 ∧
    (PostUpdateHook envAllOk stTwoClasses ctrGold).2.2 = ctrGold ∧
    (PostStartHook envAllOk stTwoClasses ctrGold).2.2.HasPending RDTController = true ∧
    (PostUpdateHook envAllOk stTwoClasses ctrGold).2.2.HasPending RDTController = true :=
  C3_unknown_class_fails envAllOk stTwoClasses ctrGold (by decide) (by decide) (by decide)
    (Or.inl (by decide))

/-- C4, as stated, fails: in a controller state in which the library holds no
class while the cached idle flag is false, `assign` for a container requesting
the QoS class name Guaranteed returns an error. -/
theorem C4_counterexample_cached_flag :
    stCachedActiveNoClasses.classes.length = 0 ∧
    IsPodQOSClassName ctrGuaranteed.rdtClass = true ∧
    (assign envAllOk stCachedActiveNoClasses ctrGuaranteed).1
      = some (rdtError envAllOk.Quote "%q: unknown RDT class %q" ["pod:ctr", "Guaranteed"]) := by
  decide

/-- C4, amended: in every controller state in which the capability library holds
zero classes, (1) if the cached idle flag is unknown or true, `assign` for a
container requesting a QoS class name returns success, calls the library for
nothing (no AddPids, no monitoring group) and leaves the classes as they are;
(2) whatever the idle flag, `assign` for a container requesting a non-empty name
that is not a QoS class name returns the error "unknown RDT class" and calls the
library for nothing. -/
theorem C4_assign_zero_classes (env : Env) (s : State) (c : Container)
    (h0 : s.classes.length = 0) :
    (s.ctl.idle ≠ some false → IsPodQOSClassName c.rdtClass = true →
      (assign env s c).1 = none ∧ (assign env s c).2.calls = s.calls ∧
      (assign env s c).2.classes = s.classes) ∧
    (c.rdtClass ≠ "" → IsPodQOSClassName c.rdtClass = false →
      (assign env s c).1 = some (rdtError env.Quote "%q: unknown RDT class %q" [c.prettyName, c.rdtClass]) ∧
      (assign env s c).2.calls = s.calls) := by
  have hnil : s.classes = [] := List.length_eq_zero.mp h0
  constructor
  · intro hidle hq
    have hi : (isImplicitlyDisabled s).1 = true := by
      rw [isImplicitlyDisabled_fst]
      cases h : s.ctl.idle with
      | none => simp [h0]
      | some b =>
        cases b with
        | true => rfl
        | false => exact absurd h hidle
    have hc := isImplicitlyDisabled_calls s
    have hk := isImplicitlyDisabled_classes s
    rcases hr : isImplicitlyDisabled s with ⟨idle, s1⟩
    rw [hr] at hi hc hk
    simp only [] at hi hc hk
    by_cases hne : c.rdtClass = ""
    · simp [assign, hne]
    · simp [assign, hne, hr, hi, hq, hc, hk]
  · intro hne hq
    have hc := isImplicitlyDisabled_calls s
    have hk := isImplicitlyDisabled_classes s
    rcases hr : isImplicitlyDisabled s with ⟨idle, s1⟩
    rw [hr] at hc hk
    simp only [] at hc hk
    simp [assign, hne, hr, hq, hc, hk, hnil, GetClass]

theorem C4_assign_zero_classes_witness :
    ((assign envAllOk stNoClasses ctrGuaranteed).1 = none ∧
      (assign envAllOk stNoClasses ctrGuaranteed).2.calls = stNoClasses.calls ∧
      (assign envAllOk stNoClasses ctrGuaranteed).2.classes = stNoClasses.classes) ∧
    ((assign envAllOk stNoClasses ctrGold).1
        = some (rdtError envAllOk.Quote "%q: unknown RDT class %q" [ctrGold.prettyName, ctrGold.rdtClass]) ∧
      (assign envAllOk stNoClasses ctrGold).2.calls = stNoClasses.calls) :=
  ⟨(C4_assign_zero_classes envAllOk stNoClasses ctrGuaranteed rfl).1 (by decide) (by decide),
   (C4_assign_zero_classes envAllOk stNoClasses ctrGold rfl).2 (by decide) (by decide)⟩

/-- C5: for a container whose requested class name is the empty string, in every
controller state (whatever the idle flag, the classes, the calls made so far) and
every outside world, `assign` returns success and the state after it is the state
before it: no class or monitoring group receives PIDs, no group is created or
deleted, and the cached idle flag is left as it was. -/
theorem C5_assign_empty_class_noop (env : Env) (s : State) (c : Container)
    (h : c.rdtClass = "") : assign env s c = (none, s) := by
  simp [assign, h]

theorem C5_assign_empty_class_noop_witness :
    ctrNoClass.rdtClass = "" ∧ assign envAllOk stNoClasses ctrNoClass = (none, stNoClasses) :=
  ⟨rfl, C5_assign_empty_class_noop envAllOk stNoClasses ctrNoClass rfl⟩

/-- C6: if `PostStartHook` returns success, a second `PostStartHook` on the state
and the container handle the first call left (in any outside world) returns
success and leaves that state and that handle as they are; and `PostStartHook` on
a container without RDT pending returns success with the state and the handle
unchanged. -/
theorem C6_PostStartHook_twice (env env2 : Env) (s : State) (c : Container) :
    ((PostStartHook env s c).1 = none →
      PostStartHook env2 (PostStartHook env s c).2.1 (PostStartHook env s c).2.2
        = (none, (PostStartHook env s c).2.1, (PostStartHook env s c).2.2)) ∧
    (c.HasPending RDTController = false → PostStartHook env s c = (none, s, c)) := by
  have hno : ∀ (e : Env) (t : State) (d : Container),
      d.HasPending RDTController = false → PostStartHook e t d = (none, t, d) := by
    intro e t d hd
    simp [PostStartHook, hd]
  refine ⟨?_, hno env s c⟩
  intro hok
  apply hno
  by_cases hp : c.HasPending RDTController = true
  · rcases ha : assign env s c with ⟨r, s1⟩
    cases r with
    | some err => simp [PostStartHook, hp, ha] at hok
    | none => simp [PostStartHook, hp, ha, HasPending_ClearPending]
  · have hp2 : c.HasPending RDTController = false := by simpa using hp
    rw [hno env s c hp2]
    exact hp2

theorem C6_PostStartHook_twice_witness :
    (PostStartHook envAllOk stTwoClasses ctrGuaranteed).1 = none ∧
    PostStartHook envAllOk (PostStartHook envAllOk stTwoClasses ctrGuaranteed).2.1
        (PostStartHook envAllOk stTwoClasses ctrGuaranteed).2.2
      = (none, (PostStartHook envAllOk stTwoClasses ctrGuaranteed).2.1,
          (PostStartHook envAllOk stTwoClasses ctrGuaranteed).2.2) :=
  ⟨by decide, (C6_PostStartHook_twice envAllOk envAllOk stTwoClasses ctrGuaranteed).1 (by decide)⟩

/-- C7: when no configured class holds a monitoring group keyed by the
container's pretty name, `stopMonitor` returns success and leaves the state as it
is (it deletes nothing and calls the library for nothing), and a second call, in
any outside world, returns success again and leaves the same state. -/
theorem C7_stopMonitor_no_group_idempotent (env env2 : Env) (s : State) (c : Container)
    (h : ∀ g ∈ s.classes, g.GetMonGroup c.prettyName = none) :
    stopMonitor env s c = (none, s) ∧
    stopMonitor env2 (stopMonitor env s c).2 c = (none, s) := by
  have h1 := stopMonitor_no_group env s c h
  refine ⟨h1, ?_⟩
  rw [h1]
  exact stopMonitor_no_group env2 s c h

theorem C7_stopMonitor_no_group_idempotent_witness :
    (∀ g ∈ stTwoClasses.classes, g.GetMonGroup ctrGuaranteed.prettyName = none) ∧
    stopMonitor envAllOk stTwoClasses ctrGuaranteed = (none, stTwoClasses) ∧
    stopMonitor envAllOk (stopMonitor envAllOk stTwoClasses ctrGuaranteed).2 ctrGuaranteed
      = (none, stTwoClasses) :=
  ⟨by decide, C7_stopMonitor_no_group_idempotent envAllOk envAllOk stTwoClasses ctrGuaranteed
    (by decide)⟩

/-- C8: `configNotify` returns nil in every controller state, and whatever the
idle flag was before the notification and whatever classes the capability library
holds at the next query, that query of `isImplicitlyDisabled` returns true if and
only if the library then has zero classes. In the scenario of the specification
(zero classes, query, notify, one class added, notify again) the first query
gives true and the last one false. -/
theorem C8_idle_recomputed_after_notify (s : State) (classes : List CtrlGroup)
    (g : CtrlGroup) :
    (configNotify s).1 = none ∧
    ((isImplicitlyDisabled { (configNotify s).2 with classes := classes }).1 = true
      ↔ classes.length = 0) ∧
    (isImplicitlyDisabled { (configNotify s).2 with classes := [] }).1 = true ∧
    (isImplicitlyDisabled
      (configNotify
        { (configNotify
            (isImplicitlyDisabled { (configNotify s).2 with classes := [] }).2).2 with
          classes := [g] }).2).1 = false := by
  refine ⟨rfl, ?_, ?_, ?_⟩
  · simp [isImplicitlyDisabled_fst, configNotify]
  · simp [isImplicitlyDisabled_fst, configNotify]
  · simp [isImplicitlyDisabled_fst, configNotify, State.log]

/-- C9: for a container with RDT pending, after `PostStartHook` and after
`PostUpdateHook` the RDT entry is gone from the pending set if and only if the
hook returned success, and the hook returns what `assign` returns. When `assign`
gets past its two early returns (the class name is not empty, and the controller
is not idle or the name is not a QoS class name), each of the four failures makes
both hooks return the error of `assign` and leave the container handle as it was,
with RDT still pending: the class is unknown, the pod is not resolved, the task
enumeration fails, or AddPids on the class fails. And for each of the five hooks
(`PreCreateHook`, `PreStartHook`, `PostStartHook`, `PostUpdateHook`,
`PostStopHook`), whether or not RDT is pending, every entry of the pending set
after the hook was there before it, and every entry of another controller is
still there after it. -/
theorem C9_pending_cleared_iff_success (env : Env) (s : State) (c : Container) :
    (c.HasPending RDTController = true →
      ((PostStartHook env s c).2.2.HasPending RDTController = false
          ↔ (PostStartHook env s c).1 = none) ∧
      ((PostUpdateHook env s c).2.2.HasPending RDTController = false
          ↔ (PostUpdateHook env s c).1 = none) ∧
      (PostStartHook env s c).1 = (assign env s c).1 ∧
      (PostUpdateHook env s c).1 = (assign env s c).1) ∧
    (∀ r ∈ [PreCreateHook s c, PreStartHook s c, PostStartHook env s c,
            PostUpdateHook env s c, PostStopHook env s c],
      (∀ n, n ∈ r.2.2.pending → n ∈ c.pending) ∧
      (∀ n, n ≠ RDTController → n ∈ c.pending → n ∈ r.2.2.pending)) ∧
    (c.HasPending RDTController = true → c.rdtClass ≠ "" →
      ((isImplicitlyDisabled s).1 = false ∨ IsPodQOSClassName c.rdtClass = false) →
      (GetClass s.classes c.rdtClass = none →
        ∀ r ∈ [PostStartHook env s c, PostUpdateHook env s c],
          r.1 = some (rdtError env.Quote "%q: unknown RDT class %q" [c.prettyName, c.rdtClass]) ∧
          r.2.2 = c ∧ r.2.2.HasPending RDTController = true) ∧
      (∀ cg, GetClass s.classes c.rdtClass = some cg → c.pod = none →
        ∀ r ∈ [PostStartHook env s c, PostUpdateHook env s c],
          r.1 = some (rdtError env.Quote "%q: failed to get pod" [c.prettyName]) ∧
          r.2.2 = c ∧ r.2.2.HasPending RDTController = true) ∧
      (∀ cg pod err, GetClass s.classes c.rdtClass = some cg → c.pod = some pod →
        env.GetTasksInContainer pod.cgroupParentDir c.id = Except.error err →
        ∀ r ∈ [PostStartHook env s c, PostUpdateHook env s c],
          r.1 = some (rdtError env.Quote "%q: failed to get process list: %v"
            [c.prettyName, err]) ∧
          r.2.2 = c ∧ r.2.2.HasPending RDTController = true) ∧
      (∀ cg pod P err, GetClass s.classes c.rdtClass = some cg → c.pod = some pod →
        env.GetTasksInContainer pod.cgroupParentDir c.id = Except.ok P →
        env.addPidsErr c.rdtClass P = some err →
        ∀ r ∈ [PostStartHook env s c, PostUpdateHook env s c],
          r.1 = some (rdtError env.Quote "%q: failed to assign to class %q: %v"
            [c.prettyName, c.rdtClass, err]) ∧
          r.2.2 = c ∧ r.2.2.HasPending RDTController = true)) := by
  have hframe : ∀ d : Container, (d = c ∨ d = c.ClearPending RDTController) →
      (∀ n, n ∈ d.pending → n ∈ c.pending) ∧
      (∀ n, n ≠ RDTController → n ∈ c.pending → n ∈ d.pending) := by
    intro d hd
    rcases hd with hd | hd
    · subst hd
      exact ⟨fun _ h => h, fun _ _ h => h⟩
    · subst hd
      exact ⟨fun n h => ((mem_ClearPending c RDTController n).mp h).1,
        fun n hn h => (mem_ClearPending c RDTController n).mpr ⟨h, hn⟩⟩
  have hiff : ∀ (r : Option String) (d : Container),
      c.HasPending RDTController = true →
      d = (if c.HasPending RDTController = true ∧ r = none
           then c.ClearPending RDTController else c) →
      (d.HasPending RDTController = false ↔ r = none) := by
    intro r d hpend hd
    cases r with
    | none =>
      rw [hd]
      simp [hpend, HasPending_ClearPending]
    | some err =>
      rw [hd]
      simp [hpend]
  have hor : ∀ (r : Option String),
      (if c.HasPending RDTController = true ∧ r = none
        then c.ClearPending RDTController else c) = c ∨
      (if c.HasPending RDTController = true ∧ r = none
        then c.ClearPending RDTController else c) = c.ClearPending RDTController := by
    intro r
    by_cases h : c.HasPending RDTController = true ∧ r = none
    · right
      rw [if_pos h]
    · left
      rw [if_neg h]
  have hfail : ∀ e : String, c.HasPending RDTController = true →
      (assign env s c).1 = some e →
      ∀ r ∈ [PostStartHook env s c, PostUpdateHook env s c],
        r.1 = some e ∧ r.2.2 = c ∧ r.2.2.HasPending RDTController = true := by
    intro e hpend hA r hr
    have h1 : (PostStartHook env s c).1 = some e := by
      rw [PostStartHook_fst env s c hpend, hA]
    have h2 : (PostUpdateHook env s c).1 = some e := by
      rw [PostUpdateHook_fst env s c hpend, hA]
    have h3 : (PostStartHook env s c).2.2 = c := by
      rw [PostStartHook_container, h1]
      simp
    have h4 : (PostUpdateHook env s c).2.2 = c := by
      rw [PostUpdateHook_container, h2]
      simp
    simp only [List.mem_cons, List.mem_singleton, List.not_mem_nil, or_false] at hr
    rcases hr with h | h
    · subst h
      exact ⟨h1, h3, by rw [h3]; exact hpend⟩
    · subst h
      exact ⟨h2, h4, by rw [h4]; exact hpend⟩
  refine ⟨?_, ?_, ?_⟩
  · intro hpend
    exact ⟨hiff _ _ hpend (PostStartHook_container env s c),
      hiff _ _ hpend (PostUpdateHook_container env s c),
      PostStartHook_fst env s c hpend, PostUpdateHook_fst env s c hpend⟩
  · intro r hr
    simp only [List.mem_cons, List.mem_singleton, List.not_mem_nil, or_false] at hr
    rcases hr with h | h | h | h | h
    · subst h
      exact hframe c (Or.inl rfl)
    · subst h
      exact hframe c (Or.inl rfl)
    · subst h
      apply hframe
      rw [PostStartHook_container]
      exact hor _
    · subst h
      apply hframe
      rw [PostUpdateHook_container]
      exact hor _
    · subst h
      apply hframe
      left
      exact PostStopHook_container env s c
  · intro hpend hne hgate
    have hg : ((isImplicitlyDisabled s).1 && IsPodQOSClassName c.rdtClass) = false := by
      rcases hgate with h | h <;> simp [h]
    refine ⟨?_, ?_, ?_, ?_⟩
    · intro hcls
      apply hfail _ hpend
      rw [assign_fst]
      simp [hne, hg, hcls]
    · intro cg hcls hpod
      apply hfail _ hpend
      rw [assign_fst]
      simp [hne, hg, hcls, hpod]
    · intro cg pod err hcls hpod ht
      apply hfail _ hpend
      rw [assign_fst]
      simp [hne, hg, hcls, hpod, ht]
    · intro cg pod P err hcls hpod ht hadd
      apply hfail _ hpend
      rw [assign_fst]
      simp [hne, hg, hcls, hpod, ht, hadd]

theorem C9_pending_cleared_iff_success_witness :
    (((PostStartHook envAddPidsFails stTwoClasses ctrGuaranteed).2.2.HasPending RDTController
          = false
        ↔ (PostStartHook envAddPidsFails stTwoClasses ctrGuaranteed).1 = none) ∧
      ((PostUpdateHook envAddPidsFails stTwoClasses ctrGuaranteed).2.2.HasPending RDTController
          = false
        ↔ (PostUpdateHook envAddPidsFails stTwoClasses ctrGuaranteed).1 = none) ∧
      (PostStartHook envAddPidsFails stTwoClasses ctrGuaranteed).1
        = (assign envAddPidsFails stTwoClasses ctrGuaranteed).1 ∧
      (PostUpdateHook envAddPidsFails stTwoClasses ctrGuaranteed).1
        = (assign envAddPidsFails stTwoClasses ctrGuaranteed).1) ∧
    (∀ r ∈ [PostStartHook envAllOk stTwoClasses ctrGold,
            PostUpdateHook envAllOk stTwoClasses ctrGold],
      r.1 = some (rdtError envAllOk.Quote "%q: unknown RDT class %q"
        [ctrGold.prettyName, ctrGold.rdtClass]) ∧
      r.2.2 = ctrGold ∧ r.2.2.HasPending RDTController = true) ∧
    (∀ r ∈ [PostStartHook envAllOk stTwoClasses ctrNoPod,
            PostUpdateHook envAllOk stTwoClasses ctrNoPod],
      r.1 = some (rdtError envAllOk.Quote "%q: failed to get pod" [ctrNoPod.prettyName]) ∧
      r.2.2 = ctrNoPod ∧ r.2.2.HasPending RDTController = true) ∧
    (∀ r ∈ [PostStartHook envTasksFail stTwoClasses ctrGuaranteed,
            PostUpdateHook envTasksFail stTwoClasses ctrGuaranteed],
      r.1 = some (rdtError envTasksFail.Quote "%q: failed to get process list: %v"
        [ctrGuaranteed.prettyName, "no such cgroup"]) ∧
      r.2.2 = ctrGuaranteed ∧ r.2.2.HasPending RDTController = true) ∧
    (∀ r ∈ [PostStartHook envAddPidsFails stTwoClasses ctrGuaranteed,
            PostUpdateHook envAddPidsFails stTwoClasses ctrGuaranteed],
      r.1 = some (rdtError envAddPidsFails.Quote "%q: failed to assign to class %q: %v"
        [ctrGuaranteed.prettyName, ctrGuaranteed.rdtClass, "write failed"]) ∧
      r.2.2 = ctrGuaranteed ∧ r.2.2.HasPending RDTController = true) :=
  ⟨(C9_pending_cleared_iff_success envAddPidsFails stTwoClasses ctrGuaranteed).1 (by decide),
   ((C9_pending_cleared_iff_success envAllOk stTwoClasses ctrGold).2.2
      (by decide) (by decide) (Or.inl (by decide))).1 (by decide),
   ((C9_pending_cleared_iff_success envAllOk stTwoClasses ctrNoPod).2.2
      (by decide) (by decide) (Or.inl (by decide))).2.1
      { name := "Guaranteed", pids := [], monGroups := [] } (by decide) rfl,
   ((C9_pending_cleared_iff_success envTasksFail stTwoClasses ctrGuaranteed).2.2
      (by decide) (by decide) (Or.inl (by decide))).2.2.1
      { name := "Guaranteed", pids := [], monGroups := [] }
      { name := "pod", cgroupParentDir := "/kubepods" } "no such cgroup" (by decide) rfl rfl,
   ((C9_pending_cleared_iff_success envAddPidsFails stTwoClasses ctrGuaranteed).2.2
      (by decide) (by decide) (Or.inl (by decide))).2.2.2
      { name := "Guaranteed", pids := [], monGroups := [] }
      { name := "pod", cgroupParentDir := "/kubepods" } ["100", "101"] "write failed"
      (by decide) rfl rfl rfl⟩

/-- C10, as stated, fails: class resolution, pod resolution, task enumeration and
AddPids on the class succeed and the monitoring group is created, but adding the
PIDs to the group fails; `assign` and `PostStartHook` return an error and RDT
stays pending. -/
theorem C10_counterexample_mon_group_add_pids :
    GetClass stTwoClasses.classes ctrGuaranteed.rdtClass
      = some { name := "Guaranteed", pids := [], monGroups := [] } ∧
    ctrGuaranteed.pod = some { name := "pod", cgroupParentDir := "/kubepods" } ∧
    envMonAddPidsFails.GetTasksInContainer "/kubepods" ctrGuaranteed.id
      = Except.ok ["100", "101"] ∧
    envMonAddPidsFails.addPidsErr ctrGuaranteed.rdtClass ["100", "101"] = none ∧
    envMonAddPidsFails.createMonGroupErr ctrGuaranteed.rdtClass ctrGuaranteed.id = none ∧
    (assign envMonAddPidsFails stTwoClasses ctrGuaranteed).1
      = some (rdtError envMonAddPidsFails.Quote "%q: failed to assign to monitoring group %q: %v"
          ["pod:ctr", "Guaranteed/c1", "write failed"]) ∧
    (PostStartHook envMonAddPidsFails stTwoClasses ctrGuaranteed).1
      = (assign envMonAddPidsFails stTwoClasses ctrGuaranteed).1 ∧
    (PostStartHook envMonAddPidsFails stTwoClasses ctrGuaranteed).2.2.HasPending RDTController
      = true :=
  ⟨by decide, by decide, rfl, by decide, by decide, by decide, by decide, by decide⟩

/-- C10, amended: for a container for which class resolution, pod resolution,
task enumeration and AddPids on the resolved class succeed, (1) `assign` returns
success when monitoring is unsupported, when creating the monitoring group fails,
or when adding the PIDs to the group succeeds; (2) when monitoring is supported,
the group is created and adding the PIDs to it fails, `assign` returns the error
"failed to assign to monitoring group", provided the shortcut for an idle
controller was not taken; (3) for a container with RDT pending, `PostStartHook`
and `PostUpdateHook` return what `assign` returns. -/
theorem C10_assign_monitoring_failures (env : Env) (s : State) (c : Container)
    (cg : CtrlGroup) (pod : Pod) (P : List String)
    (hne : c.rdtClass ≠ "")
    (hcls : GetClass s.classes c.rdtClass = some cg)
    (hpod : c.pod = some pod)
    (htasks : env.GetTasksInContainer pod.cgroupParentDir c.id = Except.ok P)
    (hadd : env.addPidsErr c.rdtClass P = none) :
    ((env.MonSupported = false ∨ env.createMonGroupErr c.rdtClass c.id ≠ none ∨
        env.monAddPidsErr c.rdtClass c.id P = none) → (assign env s c).1 = none) ∧
    (∀ e, (s.ctl.idle ≠ some true ∨ IsPodQOSClassName c.rdtClass = false) →
      env.MonSupported = true → env.createMonGroupErr c.rdtClass c.id = none →
      env.monAddPidsErr c.rdtClass c.id P = some e →
      (assign env s c).1 = some (rdtError env.Quote "%q: failed to assign to monitoring group %q: %v"
        [c.prettyName, c.rdtClass ++ "/" ++ c.id, e])) ∧
    (c.HasPending RDTController = true →
      (PostStartHook env s c).1 = (assign env s c).1 ∧
      (PostUpdateHook env s c).1 = (assign env s c).1) := by
  refine ⟨?_, ?_, fun hpend => ⟨PostStartHook_fst env s c hpend, PostUpdateHook_fst env s c hpend⟩⟩
  · intro h
    rw [assign_fst]
    simp only [hne, if_false, hcls, hpod, htasks, hadd]
    by_cases hg : ((isImplicitlyDisabled s).1 && IsPodQOSClassName c.rdtClass) = true
    · simp [hg]
    · rcases h with h | h | h
      · simp [hg, h]
      · cases hc : env.createMonGroupErr c.rdtClass c.id with
        | none => exact absurd hc h
        | some e => simp [hg]
      · cases hc : env.createMonGroupErr c.rdtClass c.id <;> simp [hg, h]
  · intro e hgate hmon hcreate hmadd
    have hg : ((isImplicitlyDisabled s).1 && IsPodQOSClassName c.rdtClass) = false := by
      rcases hgate with h | h
      · rw [(congrArg Prod.fst (isImplicitlyDisabled_active s h (GetClass_ne_nil hcls)) :
          (isImplicitlyDisabled s).1 = false)]
        rfl
      · rw [h]
        simp
    rw [assign_fst]
    simp [hne, hcls, hpod, htasks, hadd, hg, hmon, hcreate, hmadd]

theorem C10_assign_monitoring_failures_witness :
    (assign envCreateMonGroupFails stTwoClasses ctrGuaranteed).1 = none ∧
    (assign envMonAddPidsFails stTwoClasses ctrGuaranteed).1
      = some (rdtError envMonAddPidsFails.Quote "%q: failed to assign to monitoring group %q: %v"
          [ctrGuaranteed.prettyName, ctrGuaranteed.rdtClass ++ "/" ++ ctrGuaranteed.id,
           "write failed"]) ∧
    ((PostStartHook envCreateMonGroupFails stTwoClasses ctrGuaranteed).1
        = (assign envCreateMonGroupFails stTwoClasses ctrGuaranteed).1 ∧
      (PostUpdateHook envCreateMonGroupFails stTwoClasses ctrGuaranteed).1
        = (assign envCreateMonGroupFails stTwoClasses ctrGuaranteed).1) :=
  ⟨(C10_assign_monitoring_failures envCreateMonGroupFails stTwoClasses ctrGuaranteed
      { name := "Guaranteed", pids := [], monGroups := [] }
      { name := "pod", cgroupParentDir := "/kubepods" } ["100", "101"]
      (by decide) (by decide) rfl rfl rfl).1 (Or.inr (Or.inl (by decide))),
   (C10_assign_monitoring_failures envMonAddPidsFails stTwoClasses ctrGuaranteed
      { name := "Guaranteed", pids := [], monGroups := [] }
      { name := "pod", cgroupParentDir := "/kubepods" } ["100", "101"]
      (by decide) (by decide) rfl rfl rfl).2.1 "write failed" (Or.inl (by decide)) rfl rfl rfl,
   (C10_assign_monitoring_failures envCreateMonGroupFails stTwoClasses ctrGuaranteed
      { name := "Guaranteed", pids := [], monGroups := [] }
      { name := "pod", cgroupParentDir := "/kubepods" } ["100", "101"]
      (by decide) (by decide) rfl rfl rfl).2.2 (by decide)⟩

/-- C11: for every class, container identity and PID list, `monitor` returns an
error if and only if monitoring is supported, CreateMonGroup succeeds and adding
the PIDs to the created group fails. When monitoring is unsupported it returns
success and leaves the state as it is (CreateMonGroup is not called); when
CreateMonGroup fails it returns success, the only library call is that
CreateMonGroup and the classes are as before (no group receives PIDs); when
CreateMonGroup succeeds, the library calls are CreateMonGroup under the given
class with the container ID as name and the annotations pod_name and
container_name, followed by AddPids on that group, and if the class is
configured and held no group under the ID, it now holds one named by the ID with
these annotations. -/
theorem C11_monitor_error_iff (env : Env) (s : State) (cls pod name id pretty : String)
    (P : List String) :
    ((monitor env s cls pod name id pretty P).1 ≠ none ↔
      env.MonSupported = true ∧ env.createMonGroupErr cls id = none ∧
      env.monAddPidsErr cls id P ≠ none) ∧
    (env.MonSupported = false → monitor env s cls pod name id pretty P = (none, s)) ∧
    (env.MonSupported = true → env.createMonGroupErr cls id ≠ none →
      (monitor env s cls pod name id pretty P).1 = none ∧
      (monitor env s cls pod name id pretty P).2.calls = s.calls ++
        [Call.createMonGroup cls id [("pod_name", pod), ("container_name", name)]] ∧
      (monitor env s cls pod name id pretty P).2.classes = s.classes) ∧
    (env.MonSupported = true → env.createMonGroupErr cls id = none →
      (monitor env s cls pod name id pretty P).2.calls = s.calls ++
        [Call.createMonGroup cls id [("pod_name", pod), ("container_name", name)],
         Call.monAddPids cls id P] ∧
      ∀ cg, GetClass s.classes cls = some cg → cg.GetMonGroup id = none →
        ∃ (cg1 : CtrlGroup) (mg : MonGroup),
          GetClass (monitor env s cls pod name id pretty P).2.classes cls = some cg1 ∧
          cg1.GetMonGroup id = some mg ∧ mg.name = id ∧
          mg.annotations = [("pod_name", pod), ("container_name", name)]) := by
  refine ⟨?_, monitor_unsupported env s cls pod name id pretty P, ?_, ?_⟩
  · rw [monitor_fst]
    cases hm : env.MonSupported with
    | false => simp
    | true =>
      cases hc : env.createMonGroupErr cls id with
      | some e => simp
      | none => cases ha : env.monAddPidsErr cls id P <;> simp
  · intro hm hc
    cases hc2 : env.createMonGroupErr cls id with
    | none => exact absurd hc2 hc
    | some err =>
      rw [monitor_create_fails env s cls pod name id pretty P err hm hc2]
      exact ⟨rfl, rfl, rfl⟩
  · intro hm hc
    refine ⟨monitor_created env s cls pod name id pretty P hm hc, ?_⟩
    intro cg hcls hmg
    have hG1 : GetClass (modifyClass cls
        (fun g => g.withMonGroup id [("pod_name", pod), ("container_name", name)]) s.classes) cls
        = some (cg.withMonGroup id [("pod_name", pod), ("container_name", name)]) := by
      rw [GetClass_modifyClass _ _ (fun g => withMonGroup_name g _ _), hcls]
      rfl
    have hM1 : (cg.withMonGroup id [("pod_name", pod), ("container_name", name)]).GetMonGroup id
        = some { name := id, annotations := [("pod_name", pod), ("container_name", name)],
                 pids := [] } := by
      rw [GetMonGroup_withMonGroup, hmg]
      rfl
    cases ha : env.monAddPidsErr cls id P with
    | some e =>
      refine ⟨_, _, ?_, hM1, rfl, rfl⟩
      simp [monitor, hm, CreateMonGroup, hc, MonAddPids, ha, State.call]
      exact hG1
    | none =>
      refine ⟨(cg.withMonGroup id [("pod_name", pod), ("container_name", name)]).withMonPids id P,
        { name := id, annotations := [("pod_name", pod), ("container_name", name)],
          pids := [] ++ P }, ?_, ?_, rfl, rfl⟩
      · simp only [monitor, hm, CreateMonGroup, hc, MonAddPids, ha, State.call, State.log,
          Bool.not_true, Bool.false_eq_true, if_false]
        rw [GetClass_modifyClass _ _ (fun g => withMonPids_name g _ _), hG1]
        rfl
      · rw [GetMonGroup_withMonPids, hM1]
        rfl

theorem C11_monitor_error_iff_witness :
    (monitor envMonAddPidsFails stTwoClasses "Guaranteed" "pod" "ctr" "c1" "pod:ctr"
        ["100", "101"]).1 ≠ none ∧
    monitor envMonUnsupported stTwoClasses "Guaranteed" "pod" "ctr" "c1" "pod:ctr" ["100", "101"]
      = (none, stTwoClasses) ∧
    ((monitor envCreateMonGroupFails stTwoClasses "Guaranteed" "pod" "ctr" "c1" "pod:ctr"
        ["100", "101"]).1 = none ∧
      (monitor envCreateMonGroupFails stTwoClasses "Guaranteed" "pod" "ctr" "c1" "pod:ctr"
        ["100", "101"]).2.calls = stTwoClasses.calls ++
        [Call.createMonGroup "Guaranteed" "c1" [("pod_name", "pod"), ("container_name", "ctr")]] ∧
      (monitor envCreateMonGroupFails stTwoClasses "Guaranteed" "pod" "ctr" "c1" "pod:ctr"
        ["100", "101"]).2.classes = stTwoClasses.classes) ∧
    (monitor envAllOk stTwoClasses "Guaranteed" "pod" "ctr" "c1" "pod:ctr"
        ["100", "101"]).2.calls = stTwoClasses.calls ++
        [Call.createMonGroup "Guaranteed" "c1" [("pod_name", "pod"), ("container_name", "ctr")],
         Call.monAddPids "Guaranteed" "c1" ["100", "101"]] :=
  ⟨(C11_monitor_error_iff envMonAddPidsFails stTwoClasses "Guaranteed" "pod" "ctr" "c1" "pod:ctr"
      ["100", "101"]).1.mpr ⟨rfl, rfl, by decide⟩,
   (C11_monitor_error_iff envMonUnsupported stTwoClasses "Guaranteed" "pod" "ctr" "c1" "pod:ctr"
      ["100", "101"]).2.1 rfl,
   (C11_monitor_error_iff envCreateMonGroupFails stTwoClasses "Guaranteed" "pod" "ctr" "c1"
      "pod:ctr" ["100", "101"]).2.2.1 rfl (by decide),
   ((C11_monitor_error_iff envAllOk stTwoClasses "Guaranteed" "pod" "ctr" "c1" "pod:ctr"
      ["100", "101"]).2.2.2 rfl rfl).1⟩

/-- C12: for every container, pending or not, `PostStopHook` runs `stopMonitor`
(the state after the hook is the state after `stopMonitor`) and returns an error
if and only if `stopMonitor` returns one; that error is the `rdtError` built from
the pretty name and the cause, a message that starts with "rdt: ". For every
container with RDT pending, after a failed `stopMonitor` the `PostUpdateHook`
logs a warning, runs `assign` on the state `stopMonitor` left and returns
exactly what that `assign` returns, clearing the pending entry only when it
succeeds; and whether `stopMonitor` failed or not, the hook's error is the error
`assign` gives on the state before the hook. -/
theorem C12_cleanup_error_propagation (env : Env) (s : State) (c : Container) :
    (PostStopHook env s c).2.1 = (stopMonitor env s c).2 ∧
    ((PostStopHook env s c).1 ≠ none ↔ (stopMonitor env s c).1 ≠ none) ∧
    (∀ err, (stopMonitor env s c).1 = some err →
      (PostStopHook env s c).1
        = some (rdtError env.Quote "%q: failed to remove monitoring group: %v" [c.prettyName, err]) ∧
      ∃ rest, (PostStopHook env s c).1 = some ("rdt: " ++ rest)) ∧
    (c.HasPending RDTController = true → ∀ err s1, stopMonitor env s c = (some err, s1) →
      PostUpdateHook env s c =
        ((assign env
            (s1.log Level.warn "%q: failed to remove monitoring group: %v" [c.prettyName, err])
            c).1,
         (assign env
            (s1.log Level.warn "%q: failed to remove monitoring group: %v" [c.prettyName, err])
            c).2,
         if (assign env
            (s1.log Level.warn "%q: failed to remove monitoring group: %v" [c.prettyName, err])
            c).1 = none
         then c.ClearPending RDTController else c)) ∧
    (c.HasPending RDTController = true →
      (PostUpdateHook env s c).1 = (assign env s c).1) := by
  refine ⟨?_, ?_, ?_, ?_, PostUpdateHook_fst env s c⟩
  · unfold PostStopHook
    rcases hs : stopMonitor env s c with ⟨r, s1⟩
    cases r <;> rfl
  · unfold PostStopHook
    rcases hs : stopMonitor env s c with ⟨r, s1⟩
    cases r <;> simp
  · intro err herr
    have h1 : (PostStopHook env s c).1
        = some (rdtError env.Quote "%q: failed to remove monitoring group: %v" [c.prettyName, err]) := by
      unfold PostStopHook
      rcases hs : stopMonitor env s c with ⟨r, s1⟩
      rw [hs] at herr
      simp only [] at herr
      subst herr
      rfl
    refine ⟨h1, sprintf env.Quote "%q: failed to remove monitoring group: %v"
      [c.prettyName, err], ?_⟩
    rw [h1, rdtError_rdt]
  · intro hpend err s1 hs
    unfold PostUpdateHook
    rcases ha : assign env
      (s1.log Level.warn "%q: failed to remove monitoring group: %v" [c.prettyName, err]) c
      with ⟨r2, s2⟩
    cases r2 <;> simp [hpend, hs, ha]

theorem C12_cleanup_error_propagation_witness :
    ((PostStopHook envDeleteFails stGroupsUnderPrettyName ctrGuaranteed).1
        = some (rdtError envDeleteFails.Quote "%q: failed to remove monitoring group: %v"
            [ctrGuaranteed.prettyName, "rmdir failed"]) ∧
      ∃ rest, (PostStopHook envDeleteFails stGroupsUnderPrettyName ctrGuaranteed).1
        = some ("rdt: " ++ rest)) ∧
    (PostUpdateHook envDeleteFails stGroupsUnderPrettyName ctrGuaranteed).1
      = (assign envDeleteFails stGroupsUnderPrettyName ctrGuaranteed).1 :=
  ⟨(C12_cleanup_error_propagation envDeleteFails stGroupsUnderPrettyName ctrGuaranteed).2.2.1
      "rmdir failed" (by decide),
   (C12_cleanup_error_propagation envDeleteFails stGroupsUnderPrettyName ctrGuaranteed).2.2.2.2
      (by decide)⟩

/-- C13: for every list of configured classes, `stopMonitor` returns success if
and only if the deletion succeeds in every class that holds a monitoring group
keyed by the container's pretty name. If it returns success, every class is as
before except that its groups under the pretty name are gone (no class holds
such a group any more, every other group is kept), and DeleteMonGroup was called
once for each class that held one, in enumeration order. If it returns an error,
the classes split into those before the failing class, the failing class and
those after it: the error is the one of DeleteMonGroup on the failing class, the
deletions before it succeeded, the failing class and all later classes are as
before, and no DeleteMonGroup was called after the failing one. -/
theorem C13_stopMonitor_scan (env : Env) (s : State) (c : Container) :
    ((stopMonitor env s c).1 = none ↔
      ∀ g ∈ s.classes, g.GetMonGroup c.prettyName ≠ none →
        env.deleteMonGroupErr g.name c.prettyName = none) ∧
    ((stopMonitor env s c).1 = none →
      (stopMonitor env s c).2.classes = s.classes.map
        (fun g => { g with
          monGroups := g.monGroups.filter (fun m => decide (m.name ≠ c.prettyName)) }) ∧
      (∀ g ∈ (stopMonitor env s c).2.classes, g.GetMonGroup c.prettyName = none) ∧
      (stopMonitor env s c).2.calls = s.calls ++
        (s.classes.filter (fun g => (g.GetMonGroup c.prettyName).isSome)).map
          (fun g => Call.deleteMonGroup g.name c.prettyName)) ∧
    (∀ err, (stopMonitor env s c).1 = some err →
      ∃ (pre : List CtrlGroup) (g : CtrlGroup) (post : List CtrlGroup),
        s.classes = pre ++ g :: post ∧
        (∀ g0 ∈ pre, g0.GetMonGroup c.prettyName ≠ none →
          env.deleteMonGroupErr g0.name c.prettyName = none) ∧
        g.GetMonGroup c.prettyName ≠ none ∧
        env.deleteMonGroupErr g.name c.prettyName = some err ∧
        (stopMonitor env s c).2.classes = pre.map
          (fun g0 => { g0 with
            monGroups := g0.monGroups.filter (fun m => decide (m.name ≠ c.prettyName)) })
          ++ g :: post ∧
        (stopMonitor env s c).2.calls = s.calls ++
          (pre.filter (fun g0 => (g0.GetMonGroup c.prettyName).isSome)).map
            (fun g0 => Call.deleteMonGroup g0.name c.prettyName)
          ++ [Call.deleteMonGroup g.name c.prettyName]) := by
  rcases hl : stopMonitorLoop env c c.prettyName s.classes s with ⟨r, cl1, s1⟩
  have hsm : stopMonitor env s c = (r, { s1 with classes := cl1 }) := by
    simp [stopMonitor, hl]
  rw [hsm]
  cases r with
  | none =>
    obtain ⟨i1, i2, i3⟩ := stopMonitorLoop_success env c c.prettyName s.classes s cl1 s1 hl
    refine ⟨⟨fun _ => i1, fun _ => rfl⟩, fun _ => ⟨i2, ?_, i3⟩, ?_⟩
    · intro g hg
      have hg2 : g ∈ cl1 := hg
      rw [i2] at hg2
      obtain ⟨g0, _, rfl⟩ := List.mem_map.mp hg2
      exact GetMonGroup_withoutMonGroup g0 c.prettyName
    · intro err herr
      simp at herr
  | some err0 =>
    obtain ⟨pre, g, post, e1, e2, e3, e4, e5, e6⟩ :=
      stopMonitorLoop_failure env c c.prettyName s.classes s err0 cl1 s1 hl
    refine ⟨⟨?_, ?_⟩, ?_, ?_⟩
    · intro h
      simp at h
    · intro h
      have hmem : g ∈ s.classes := by
        rw [e1]
        simp
      have := h g hmem e3
      rw [e4] at this
      simp at this
    · intro h
      simp at h
    · intro err herr
      have : err0 = err := by simpa using herr
      subst this
      exact ⟨pre, g, post, e1, e2, e3, e4, e5, e6⟩

theorem C13_stopMonitor_scan_witness :
    ((stopMonitor envAllOk stGroupsUnderPrettyName ctrGuaranteed).2.classes
        = stGroupsUnderPrettyName.classes.map
            (fun g => { g with
              monGroups := g.monGroups.filter
                (fun m => decide (m.name ≠ ctrGuaranteed.prettyName)) }) ∧
      (∀ g ∈ (stopMonitor envAllOk stGroupsUnderPrettyName ctrGuaranteed).2.classes,
        g.GetMonGroup ctrGuaranteed.prettyName = none) ∧
      (stopMonitor envAllOk stGroupsUnderPrettyName ctrGuaranteed).2.calls
        = stGroupsUnderPrettyName.calls ++
          (stGroupsUnderPrettyName.classes.filter
            (fun g => (g.GetMonGroup ctrGuaranteed.prettyName).isSome)).map
            (fun g => Call.deleteMonGroup g.name ctrGuaranteed.prettyName)) ∧
    (∃ (pre : List CtrlGroup) (g : CtrlGroup) (post : List CtrlGroup),
        stGroupsUnderPrettyName.classes = pre ++ g :: post ∧
        (∀ g0 ∈ pre, g0.GetMonGroup ctrGuaranteed.prettyName ≠ none →
          envDeleteFails.deleteMonGroupErr g0.name ctrGuaranteed.prettyName = none) ∧
        g.GetMonGroup ctrGuaranteed.prettyName ≠ none ∧
        envDeleteFails.deleteMonGroupErr g.name ctrGuaranteed.prettyName = some "rmdir failed" ∧
        (stopMonitor envDeleteFails stGroupsUnderPrettyName ctrGuaranteed).2.classes = pre.map
          (fun g0 => { g0 with
            monGroups := g0.monGroups.filter
              (fun m => decide (m.name ≠ ctrGuaranteed.prettyName)) })
          ++ g :: post ∧
        (stopMonitor envDeleteFails stGroupsUnderPrettyName ctrGuaranteed).2.calls
          = stGroupsUnderPrettyName.calls ++
            (pre.filter (fun g0 => (g0.GetMonGroup ctrGuaranteed.prettyName).isSome)).map
              (fun g0 => Call.deleteMonGroup g0.name ctrGuaranteed.prettyName)
            ++ [Call.deleteMonGroup g.name ctrGuaranteed.prettyName]) :=
  ⟨(C13_stopMonitor_scan envAllOk stGroupsUnderPrettyName ctrGuaranteed).2.1 (by decide),
   (C13_stopMonitor_scan envDeleteFails stGroupsUnderPrettyName ctrGuaranteed).2.2
      "rmdir failed" (by decide)⟩

end Rdt
